import Mathlib

/-!
# Verification of the rplidar device driver core

A shallow embedding of the `rplidar_drv` driver (`src/rplidar_drv/src/lib.rs`)
together with proofs about its telemetry pipeline, scan-mode negotiation and
scan-start choreography.

Bytes are modelled as `Nat` values below 256 (with explicit `% 256` where the
source relies on machine-integer wrap-around), byte strings as `List Nat`, and
fallible operations as `Except RposError`.  Stateful driver methods become
functions `RplidarDevice → Except RposError α × RplidarDevice` that always
return the post-state, mirroring the fact that the Rust methods mutate
`self` in place even when they propagate an error with `?`.

The external transport (`rpos_drv::Channel`) is modelled deterministically:
a list of pending request/response replies (for `invoke`), a list of buffered
unsolicited telemetry frames (for `read_until`, empty list = timeout) and a
log of every request frame written to the wire.  Caller-supplied `Duration`
timeouts carry no information in this deterministic model and are dropped.

Modules of the repository that are not under `src/` (`answers`, `cmds`,
`checksum`, `capsuled_parser`, `prelude`, `protocol`) are modelled from the
specification; each such definition carries a doc comment starting with
`Modelled from the spec:`.
-/

namespace Rplidar

/-- Error kinds of the external `rpos_drv` error type, as named by the spec
(§7): timeout, well-formed-but-mismatched answer, and protocol corruption. -/
inductive ErrorKind where
  | OperationFail
  | OperationTimeout
  | ProtocolError
deriving DecidableEq, Repr

/-- The external `rpos_drv::Error`: a kind plus a human-readable description,
exactly the two arguments of every `Error::new` call in the source. -/
structure RposError where
  kind : ErrorKind
  description : String
deriving DecidableEq, Repr

/-- A protocol frame as exchanged with the transport: the command / answer
type byte and the payload bytes (`rpos_drv::Message`). -/
structure Message where
  cmd : Nat
  data : List Nat
deriving DecidableEq, Repr

/-- Canonical output point (`ScanPoint` of the absent `prelude` module;
its four fields are fixed by the `From` impl and the struct literal in
`lib.rs`): fixed-point angle, fixed-point distance, quality, sync flag. -/
structure ScanPoint where
  angle_z_q14 : Nat
  dist_mm_q2 : Nat
  quality : Nat
  flag : Nat
deriving DecidableEq, Repr

/-- Raw legacy measurement record; its three fields are the ones read by
`on_measurement_node` in `lib.rs`. -/
structure RplidarResponseMeasurementNode where
  sync_quality : Nat
  angle_q6_checkbit : Nat
  distance_q2 : Nat
deriving DecidableEq, Repr

/-- Raw HQ measurement record; already canonical (the `From` impl in
`lib.rs` copies its four fields verbatim into `ScanPoint`). -/
structure RplidarResponseMeasurementNodeHq where
  angle_z_q14 : Nat
  dist_mm_q2 : Nat
  quality : Nat
  flag : Nat
deriving DecidableEq, Repr

/-- Modelled from the spec: one compressed point sample of a classic capsule
(§4.2, glossary) — quantized distance, quantized angle-offset refinement and
quality bits.  The concrete wire quantization lives in the absent `answers`
module. -/
structure CapsulePoint where
  dist_q2 : Nat
  angle_offset_q16 : Nat
  quality : Nat
deriving DecidableEq, Repr

/-- Modelled from the spec: the classic capsule record
(`RplidarResponseCapsuleMeasurementNodes` of the absent `answers` module) —
one shared coarse start angle for the whole bundle plus the compressed point
samples (§4.2, glossary).  Angles are in q16 fractions of a full turn
(`2 ^ 16` = one revolution, the unit of `angle_z_q14`). -/
structure RplidarResponseCapsuleMeasurementNodes where
  start_angle_q16 : Nat
  points : List CapsulePoint
deriving DecidableEq, Repr

/-- Modelled from the spec: the ultra capsule record
(`RplidarResponseUltraCapsuleMeasurementNodes` of the absent `answers`
module).  The driver source never decodes its content (the pairing arm of
`on_measurement_ultra_capsuled` is an empty TODO), so the record is modelled
as its raw payload bytes. -/
structure RplidarResponseUltraCapsuleMeasurementNodes where
  data : List Nat
deriving DecidableEq, Repr

/-- The tagged one-capsule lookahead cache, verbatim from `lib.rs`. -/
inductive CachedPrevCapsule where
  | None
  | Capsuled (nodes : RplidarResponseCapsuleMeasurementNodes)
  | UltraCapsuled (nodes : RplidarResponseUltraCapsuleMeasurementNodes)
deriving DecidableEq, Repr

/-- Scan-mode capability descriptor (`ScanMode` of the absent `prelude`
module; its five fields are fixed by the struct literal in
`get_scan_mode_with_timeout`).  The two `f32` fields (`q8` fixed-point
values divided by `256f32`) are modelled as exact rationals. -/
structure ScanMode where
  id : Nat
  us_per_sample : Rat
  max_distance : Rat
  ans_type : Nat
  name : List Nat
deriving DecidableEq, Repr

/-- Modelled from the spec: `ScanOptions` of the absent `prelude` module;
its three fields are the ones read by `start_scan_with_options_and_timeout`:
an optional explicit mode id, the force-scan flag and the express flags
word. -/
structure ScanOptions where
  scan_mode : Option Nat
  force_scan : Bool
  options : Nat
deriving DecidableEq, Repr

/-- Modelled from the spec: the default `ScanOptions` (no explicit mode, no
force, no flags). -/
def ScanOptions.default : ScanOptions :=
  { scan_mode := Option.none, force_scan := false, options := 0 }

/-- The driver state (`RplidarDevice` of `lib.rs`) together with the
deterministic model of its exclusively-owned transport: `responses` feeds
`Channel::invoke` (front first, `Option.none` = timeout, exhausted list =
timeout), `telemetry` feeds `Channel::read_until` (exhausted list = timeout)
and `sent` logs every request frame written to the wire, in order. -/
structure RplidarDevice where
  responses : List (Option Message)
  telemetry : List Message
  sent : List Message
  cached_measurement_nodes : List ScanPoint
  cached_prev_capsule : CachedPrevCapsule
deriving DecidableEq, Repr

/-! ## Wire constants

The opcode / answer-type catalog lives in the absent `cmds` and `answers`
modules; the spec fixes only that they are distinct fixed bytes (§6), so the
values below are modelled constants (taken from the public SLAMTEC protocol
where known).  No theorem depends on the particular values, only on their
distinctness. -/

/-- Modelled from the spec: legacy scan-start opcode. -/
def RPLIDAR_CMD_SCAN : Nat := 0x20
/-- Modelled from the spec: forced legacy scan-start opcode. -/
def RPLIDAR_CMD_FORCE_SCAN : Nat := 0x21
/-- Modelled from the spec: express scan-start opcode. -/
def RPLIDAR_CMD_EXPRESS_SCAN : Nat := 0x82
/-- Modelled from the spec: get-configuration opcode. -/
def RPLIDAR_CMD_GET_LIDAR_CONF : Nat := 0x84
/-- Modelled from the spec: answer type of a configuration reply. -/
def RPLIDAR_ANS_TYPE_GET_LIDAR_CONF : Nat := 0x20
/-- Modelled from the spec: answer type of a legacy measurement frame. -/
def RPLIDAR_ANS_TYPE_MEASUREMENT : Nat := 0x81
/-- Modelled from the spec: answer type of a capsule frame. -/
def RPLIDAR_ANS_TYPE_MEASUREMENT_CAPSULED : Nat := 0x82
/-- Modelled from the spec: answer type of an HQ measurement frame. -/
def RPLIDAR_ANS_TYPE_MEASUREMENT_HQ : Nat := 0x83
/-- Modelled from the spec: answer type of an ultra capsule frame. -/
def RPLIDAR_ANS_TYPE_MEASUREMENT_CAPSULED_ULTRA : Nat := 0x84
/-- Modelled from the spec: config id of the typical-scan-mode query. -/
def RPLIDAR_CONF_SCAN_MODE_TYPICAL : Nat := 0x7C
/-- Modelled from the spec: config id of the mode-count query. -/
def RPLIDAR_CONF_SCAN_MODE_COUNT : Nat := 0x70
/-- Modelled from the spec: config id of the per-mode sample-duration query. -/
def RPLIDAR_CONF_SCAN_MODE_US_PER_SAMPLE : Nat := 0x71
/-- Modelled from the spec: config id of the per-mode max-distance query. -/
def RPLIDAR_CONF_SCAN_MODE_MAX_DISTANCE : Nat := 0x74
/-- Modelled from the spec: config id of the per-mode answer-type query. -/
def RPLIDAR_CONF_SCAN_MODE_ANS_TYPE : Nat := 0x75
/-- Modelled from the spec: config id of the per-mode name query. -/
def RPLIDAR_CONF_SCAN_MODE_NAME : Nat := 0x7F
/-- Modelled from the spec: expected high nibble of payload byte 0 (§4.1). -/
def RPLIDAR_RESP_MEASUREMENT_EXP_SYNC_1 : Nat := 0xA
/-- Modelled from the spec: expected high nibble of payload byte 1 (§4.1). -/
def RPLIDAR_RESP_MEASUREMENT_EXP_SYNC_2 : Nat := 0x5
/-- Modelled from the spec: sync-bit mask of a legacy measurement. -/
def RPLIDAR_RESP_MEASUREMENT_SYNCBIT : Nat := 1
/-- Modelled from the spec: quality bit shift of a legacy measurement. -/
def RPLIDAR_RESP_MEASUREMENT_QUALITY_SHIFT : Nat := 2
/-- Modelled from the spec: angle bit shift of a legacy measurement. -/
def RPLIDAR_RESP_MEASUREMENT_ANGLE_SHIFT : Nat := 1

/-! ## Byte helpers (little-endian, per §6) -/

/-- Little-endian 16-bit read of two bytes. -/
def le16 (b0 b1 : Nat) : Nat := b0 + 256 * b1

/-- `LittleEndian::write_u16`: the two bytes of `v % 2 ^ 16`, low first. -/
def write_u16_le (v : Nat) : List Nat := [v % 256, v / 256 % 256]

/-- `LittleEndian::write_u32`: the four bytes of `v % 2 ^ 32`, low first. -/
def write_u32_le (v : Nat) : List Nat :=
  [v % 256, v / 256 % 256, v / 65536 % 256, v / 16777216 % 256]

/-- `LittleEndian::read_u16` of the first two bytes. -/
def read_u16_le (data : List Nat) : Nat := le16 (data.getD 0 0) (data.getD 1 0)

/-- `LittleEndian::read_u32` of the first four bytes. -/
def read_u32_le (data : List Nat) : Nat :=
  data.getD 0 0 + 256 * data.getD 1 0 + 65536 * data.getD 2 0 +
    16777216 * data.getD 3 0

/-! ## Checksum validator (§4.1) -/

/-- Modelled from the spec: the `Checksum` accumulator of the absent
`checksum` module — an 8-bit running XOR fold of the pushed bytes (§4.1:
"XOR-fold every byte ... into a single accumulator"). -/
def checksumOf (bytes : List Nat) : Nat := bytes.foldl Nat.xor 0

/-- The received checksum of a telemetry payload: low nibble of byte 0 is
the low nibble, byte 1 shifted left by four (as a `u8`, so only its low
nibble survives) is the high nibble — `(data[0] & 0xf) | (data[1] << 4)`. -/
def recvChecksum (b0 b1 : Nat) : Nat := Nat.lor (b0 % 16) (b1 * 16 % 256)

/-- `check_sync_and_checksum` from `lib.rs`: length guard, the two sync
nibbles, then the XOR fold of everything from offset 2 against the received
checksum. -/
def check_sync_and_checksum (msg : Message) : Except RposError Unit :=
  if msg.data.length < 2 then
    Except.error ⟨ErrorKind.ProtocolError, "data too short"⟩
  else if msg.data.getD 0 0 / 16 ≠ RPLIDAR_RESP_MEASUREMENT_EXP_SYNC_1 then
    Except.error ⟨ErrorKind.ProtocolError, "miss sync 1"⟩
  else if msg.data.getD 1 0 / 16 ≠ RPLIDAR_RESP_MEASUREMENT_EXP_SYNC_2 then
    Except.error ⟨ErrorKind.ProtocolError, "miss sync 2"⟩
  else if checksumOf (msg.data.drop 2) ≠
      recvChecksum (msg.data.getD 0 0) (msg.data.getD 1 0) then
    Except.error ⟨ErrorKind.ProtocolError, "checksum mismatch"⟩
  else
    Except.ok ()

instance {ε α : Type} [DecidableEq ε] [DecidableEq α] :
    DecidableEq (Except ε α) := fun a b =>
  match a, b with
  | Except.ok x, Except.ok y =>
    if h : x = y then isTrue (by rw [h]) else isFalse (by simp [h])
  | Except.error x, Except.error y =>
    if h : x = y then isTrue (by rw [h]) else isFalse (by simp [h])
  | Except.ok _, Except.error _ => isFalse (by simp)
  | Except.error _, Except.ok _ => isFalse (by simp)

/-! ## Record decoding (the `parse_resp!` macro)

`parse_resp!` reinterprets the payload bytes as a fixed-layout record after
an exact-size check and otherwise fails with
`OperationFail / "answer type mismatch"`.  The record layouts live in the
absent `answers` module; the decoders below model them with little-endian
field extraction (§6).  The spec leaves the capsule quantization layout
open (§2, §9), so the classic-capsule extraction below fixes one concrete
layout only to keep the record decodable; no theorem depends on it. -/

/-- The `OperationFail` error produced by a failing `parse_resp!`. -/
def answerTypeMismatch : RposError := ⟨ErrorKind.OperationFail, "answer type mismatch"⟩

/-- Modelled from the spec: byte size of the classic capsule record of the
absent `answers` module (two header bytes, a 16-bit start angle, sixteen
five-byte cabins). -/
def RPLIDAR_CAPSULE_SIZE : Nat := 84

/-- Modelled from the spec: byte size of the ultra capsule record of the
absent `answers` module. -/
def RPLIDAR_ULTRA_CAPSULE_SIZE : Nat := 132

/-- Modelled from the spec: byte size of the raw legacy measurement record
(sync and quality byte, 16-bit angle word, 16-bit distance word). -/
def RPLIDAR_MEASUREMENT_NODE_SIZE : Nat := 5

/-- Modelled from the spec: byte size of the raw HQ measurement record
(16-bit angle, 32-bit distance, quality byte, flag byte). -/
def RPLIDAR_MEASUREMENT_NODE_HQ_SIZE : Nat := 8

/-- `parse_resp_data!(_, u8)`: exactly one byte. -/
def parse_resp_u8 (data : List Nat) : Except RposError Nat :=
  if data.length = 1 then Except.ok (data.getD 0 0)
  else Except.error answerTypeMismatch

/-- `parse_resp_data!(_, u16)`: exactly two bytes, little-endian. -/
def parse_resp_u16 (data : List Nat) : Except RposError Nat :=
  if data.length = 2 then Except.ok (read_u16_le data)
  else Except.error answerTypeMismatch

/-- `parse_resp_data!(_, u32)`: exactly four bytes, little-endian. -/
def parse_resp_u32 (data : List Nat) : Except RposError Nat :=
  if data.length = 4 then Except.ok (read_u32_le data)
  else Except.error answerTypeMismatch

/-- `parse_resp!(_, RplidarResponseMeasurementNode)`. -/
def parse_resp_measurement (data : List Nat) :
    Except RposError RplidarResponseMeasurementNode :=
  if data.length = RPLIDAR_MEASUREMENT_NODE_SIZE then
    Except.ok
      { sync_quality := data.getD 0 0
        angle_q6_checkbit := le16 (data.getD 1 0) (data.getD 2 0)
        distance_q2 := le16 (data.getD 3 0) (data.getD 4 0) }
  else Except.error answerTypeMismatch

/-- `parse_resp!(_, RplidarResponseMeasurementNodeHq)`. -/
def parse_resp_hq (data : List Nat) :
    Except RposError RplidarResponseMeasurementNodeHq :=
  if data.length = RPLIDAR_MEASUREMENT_NODE_HQ_SIZE then
    Except.ok
      { angle_z_q14 := le16 (data.getD 0 0) (data.getD 1 0)
        dist_mm_q2 := read_u32_le (data.drop 2)
        quality := data.getD 6 0
        flag := data.getD 7 0 }
  else Except.error answerTypeMismatch

/-- Five-byte cabin chunks of a capsule payload. -/
def chunk5 : List Nat → List (List Nat)
  | a :: b :: c :: d :: e :: rest => [a, b, c, d, e] :: chunk5 rest
  | _ => []

/-- Modelled from the spec: extraction of one compressed point sample from a
five-byte cabin — quantized distance word, quality byte, angle-offset
refinement byte (§4.2; exact quantization underdetermined, see §9). -/
def capsulePointOfChunk (c : List Nat) : CapsulePoint :=
  { dist_q2 := le16 (c.getD 0 0) (c.getD 1 0)
    angle_offset_q16 := c.getD 4 0
    quality := c.getD 2 0 }

/-- Modelled from the spec: reinterpretation of a classic capsule payload as
the capsule record — the two header bytes carry sync and checksum nibbles
(§4.1), the following 16-bit word carries the coarse start angle (its top
bit is a sync marker, masked off and the rest scaled to q16 fractions of a
turn), the remaining bytes the cabins. -/
def parse_capsule_bytes (data : List Nat) :
    RplidarResponseCapsuleMeasurementNodes :=
  { start_angle_q16 := le16 (data.getD 2 0) (data.getD 3 0) % 32768 * 2
    points := (chunk5 (data.drop 4)).map capsulePointOfChunk }

/-- `parse_resp!(_, RplidarResponseCapsuleMeasurementNodes)`. -/
def parse_resp_capsuled (data : List Nat) :
    Except RposError RplidarResponseCapsuleMeasurementNodes :=
  if data.length = RPLIDAR_CAPSULE_SIZE then
    Except.ok (parse_capsule_bytes data)
  else Except.error answerTypeMismatch

/-- `parse_resp!(_, RplidarResponseUltraCapsuleMeasurementNodes)`: the raw
payload after the exact-size check (the driver never reads its fields). -/
def parse_resp_ultra_capsuled (data : List Nat) :
    Except RposError RplidarResponseUltraCapsuleMeasurementNodes :=
  if data.length = RPLIDAR_ULTRA_CAPSULE_SIZE then
    Except.ok ⟨data⟩
  else Except.error answerTypeMismatch

/-! ## Capsule decoder (§4.2) -/

/-- One full turn in the q16 angle unit of `angle_z_q14` (360 degrees). -/
def FULL_TURN_Q16 : Nat := 65536

/-- Modelled from the spec: the per-point interpolation of §4.2 — for each
of the `k` points of the previous capsule, a linear interpolation weight
`i / k` over the angular span between the two start angles (wrap-around at
the full turn: a negative span gains one full turn), refined by the point's
embedded quantized angle offset, combined with its quantized distance and
quality. -/
def interpolateCapsulePoints
    (prev next : RplidarResponseCapsuleMeasurementNodes) :
    List RplidarResponseMeasurementNodeHq :=
  let k := prev.points.length
  let span : Nat :=
    (((next.start_angle_q16 : Int) - (prev.start_angle_q16 : Int)) %
      (FULL_TURN_Q16 : Int)).toNat
  prev.points.enum.map fun p =>
    { angle_z_q14 :=
        (prev.start_angle_q16 + span * p.1 / k + p.2.angle_offset_q16) %
          FULL_TURN_Q16
      dist_mm_q2 := p.2.dist_q2
      quality := p.2.quality
      flag := 0 }

/-- Modelled from the spec: `parse_capsuled` of the absent
`capsuled_parser` module (§4.2) — with no previous capsule cached, cache the
new one and emit nothing; with a previous classic capsule cached, emit its
interpolated points and cache the new one; a cached capsule of the other
format cannot pair and is replaced (§3: at most one capsule of one format is
buffered, switching formats resets the baseline). -/
def parse_capsuled (cached : CachedPrevCapsule)
    (nodes : RplidarResponseCapsuleMeasurementNodes) :
    List RplidarResponseMeasurementNodeHq × CachedPrevCapsule :=
  match cached with
  | CachedPrevCapsule.Capsuled prev =>
    (interpolateCapsulePoints prev nodes, CachedPrevCapsule.Capsuled nodes)
  | _ => ([], CachedPrevCapsule.Capsuled nodes)

/-! ## Transport model (§6) -/

/-- Modelled from the spec: `Channel::write` — sends one request frame. -/
def channelWrite (d : RplidarDevice) (m : Message) : RplidarDevice :=
  { d with sent := d.sent ++ [m] }

/-- Modelled from the spec: `Channel::invoke` — sends the request frame and
returns the next pending reply (`Option.none` = timeout). -/
def channelInvoke (d : RplidarDevice) (m : Message) :
    Option Message × RplidarDevice :=
  match d.responses with
  | [] => (Option.none, channelWrite d m)
  | r :: rest => (r, { channelWrite d m with responses := rest })

/-- Modelled from the spec: `Channel::read_until` — returns the next
buffered unsolicited telemetry frame, or `Option.none` (timeout) when none
is buffered. -/
def channelReadUntil (d : RplidarDevice) : Option Message × RplidarDevice :=
  match d.telemetry with
  | [] => (Option.none, d)
  | m :: rest => (some m, { d with telemetry := rest })

/-! ## Measurement normalizer and output queue (§4.4) -/

/-- The `From` impl: an HQ record is already canonical. -/
def ScanPoint.fromHq (p : RplidarResponseMeasurementNodeHq) : ScanPoint :=
  { angle_z_q14 := p.angle_z_q14
    dist_mm_q2 := p.dist_mm_q2
    quality := p.quality
    flag := p.flag }

/-- `on_measurement_node_hq`: append the canonical point to the queue. -/
def on_measurement_node_hq (d : RplidarDevice)
    (node : RplidarResponseMeasurementNodeHq) : RplidarDevice :=
  { d with
    cached_measurement_nodes :=
      d.cached_measurement_nodes ++ [ScanPoint.fromHq node] }

/-- The HQ record literal built inside `on_measurement_node`: angle
`((a >> 1) << 8) / 90` truncated to `u16`, distance widened, sync bit
masked, quality bits re-masked. -/
def normalizeLegacyNode (node : RplidarResponseMeasurementNode) :
    RplidarResponseMeasurementNodeHq :=
  { angle_z_q14 :=
      node.angle_q6_checkbit / 2 ^ RPLIDAR_RESP_MEASUREMENT_ANGLE_SHIFT *
        256 / 90 % 65536
    dist_mm_q2 := node.distance_q2
    flag := Nat.land node.sync_quality RPLIDAR_RESP_MEASUREMENT_SYNCBIT
    quality :=
      node.sync_quality / 2 ^ RPLIDAR_RESP_MEASUREMENT_QUALITY_SHIFT *
        2 ^ RPLIDAR_RESP_MEASUREMENT_QUALITY_SHIFT }

/-- `on_measurement_node`: normalize a legacy record into an HQ record and
append it. -/
def on_measurement_node (d : RplidarDevice)
    (node : RplidarResponseMeasurementNode) : RplidarDevice :=
  on_measurement_node_hq d (normalizeLegacyNode node)

/-- `on_measurement_capsuled`: route the record and the cached previous
capsule through the capsule decoder, store the updated cache, append every
emitted node in order. -/
def on_measurement_capsuled (d : RplidarDevice)
    (nodes : RplidarResponseCapsuleMeasurementNodes) : RplidarDevice :=
  let parsed := parse_capsuled d.cached_prev_capsule nodes
  parsed.1.foldl on_measurement_node_hq
    { d with cached_prev_capsule := parsed.2 }

/-- `on_measurement_ultra_capsuled`, verbatim from `lib.rs`: with an ultra
capsule already cached the match arm is an empty TODO (the state is left
untouched); otherwise the received record becomes the cache. -/
def on_measurement_ultra_capsuled (d : RplidarDevice)
    (nodes : RplidarResponseUltraCapsuleMeasurementNodes) : RplidarDevice :=
  match d.cached_prev_capsule with
  | CachedPrevCapsule.UltraCapsuled _ => d
  | _ =>
    { d with cached_prev_capsule := CachedPrevCapsule.UltraCapsuled nodes }

/-- `on_measurement_capsuled_msg`: sync/checksum validation, then record
decoding, then the capsule decoder; each failure propagates with `?` and
leaves the driver state untouched. -/
def on_measurement_capsuled_msg (d : RplidarDevice) (msg : Message) :
    Except RposError Unit × RplidarDevice :=
  match check_sync_and_checksum msg with
  | Except.error e => (Except.error e, d)
  | Except.ok _ =>
    match parse_resp_capsuled msg.data with
    | Except.error e => (Except.error e, d)
    | Except.ok nodes => (Except.ok (), on_measurement_capsuled d nodes)

/-- `on_measurement_ultra_capsuled_msg`: as the classic path, for the ultra
record. -/
def on_measurement_ultra_capsuled_msg (d : RplidarDevice) (msg : Message) :
    Except RposError Unit × RplidarDevice :=
  match check_sync_and_checksum msg with
  | Except.error e => (Except.error e, d)
  | Except.ok _ =>
    match parse_resp_ultra_capsuled msg.data with
    | Except.error e => (Except.error e, d)
    | Except.ok nodes => (Except.ok (), on_measurement_ultra_capsuled d nodes)

/-- `wait_scan_data_with_timeout`: pull the next telemetry frame (a
transport timeout is success with no new data), dispatch on its answer
type, and fail with `ProtocolError / "unexpected response"` on any other
answer type. -/
def wait_scan_data_with_timeout (d : RplidarDevice) :
    Except RposError Unit × RplidarDevice :=
  match channelReadUntil d with
  | (Option.none, d₁) => (Except.ok (), d₁)
  | (some msg, d₁) =>
    if msg.cmd = RPLIDAR_ANS_TYPE_MEASUREMENT then
      match parse_resp_measurement msg.data with
      | Except.error e => (Except.error e, d₁)
      | Except.ok node => (Except.ok (), on_measurement_node d₁ node)
    else if msg.cmd = RPLIDAR_ANS_TYPE_MEASUREMENT_HQ then
      match parse_resp_hq msg.data with
      | Except.error e => (Except.error e, d₁)
      | Except.ok node => (Except.ok (), on_measurement_node_hq d₁ node)
    else if msg.cmd = RPLIDAR_ANS_TYPE_MEASUREMENT_CAPSULED then
      on_measurement_capsuled_msg d₁ msg
    else if msg.cmd = RPLIDAR_ANS_TYPE_MEASUREMENT_CAPSULED_ULTRA then
      on_measurement_ultra_capsuled_msg d₁ msg
    else
      (Except.error ⟨ErrorKind.ProtocolError, "unexpected response"⟩, d₁)

/-- The `OperationTimeout` error of a failing `grab_scan_point`. -/
def grabTimeout : RposError :=
  ⟨ErrorKind.OperationTimeout, "grab scan point timeout"⟩

/-- `grab_scan_point_with_timeout`: a non-empty queue is popped with no
I/O; an empty queue triggers exactly one dispatch attempt, after which a
still-empty queue fails with `OperationTimeout`. -/
def grab_scan_point_with_timeout (d : RplidarDevice) :
    Except RposError ScanPoint × RplidarDevice :=
  match d.cached_measurement_nodes with
  | p :: rest =>
    (Except.ok p, { d with cached_measurement_nodes := rest })
  | [] =>
    match wait_scan_data_with_timeout d with
    | (Except.error e, d₁) => (Except.error e, d₁)
    | (Except.ok _, d₁) =>
      match d₁.cached_measurement_nodes with
      | [] => (Except.error grabTimeout, d₁)
      | p :: rest =>
        (Except.ok p, { d₁ with cached_measurement_nodes := rest })

/-! ## Scan-mode negotiator (§4.3) -/

/-- The request frame of one configuration query: the get-config opcode, a
four-byte little-endian config type, then the parameter bytes. -/
def confRequest (config_type : Nat) (param : List Nat) : Message :=
  ⟨RPLIDAR_CMD_GET_LIDAR_CONF, write_u32_le config_type ++ param⟩

/-- `get_lidar_conf_with_param_and_timeout`: one `invoke` round trip; a
missing reply is `OperationTimeout`, a reply of the wrong answer type or
with a mismatching four-byte config-type echo is `OperationFail`, and
otherwise the bytes after the echo are returned. -/
def get_lidar_conf_with_param_and_timeout (d : RplidarDevice)
    (config_type : Nat) (param : List Nat) :
    Except RposError (List Nat) × RplidarDevice :=
  match channelInvoke d (confRequest config_type param) with
  | (Option.none, d₁) =>
    (Except.error ⟨ErrorKind.OperationTimeout, "operation timeout"⟩, d₁)
  | (some rm, d₁) =>
    if rm.cmd ≠ RPLIDAR_ANS_TYPE_GET_LIDAR_CONF then
      (Except.error ⟨ErrorKind.OperationFail, "answer type mismatch"⟩, d₁)
    else if rm.data.length < 4 ∨ read_u32_le rm.data ≠ config_type then
      (Except.error ⟨ErrorKind.OperationFail, "answer config type mismatch"⟩,
        d₁)
    else
      (Except.ok (rm.data.drop 4), d₁)

/-- `get_typical_scan_mode_with_timeout`: the typical-mode config query
parsed as a `u16` mode id. -/
def get_typical_scan_mode_with_timeout (d : RplidarDevice) :
    Except RposError Nat × RplidarDevice :=
  match get_lidar_conf_with_param_and_timeout d RPLIDAR_CONF_SCAN_MODE_TYPICAL
      [] with
  | (Except.error e, d₁) => (Except.error e, d₁)
  | (Except.ok data, d₁) => (parse_resp_u16 data, d₁)

/-- `get_scan_mode_us_per_sample_with_timeout`: per-mode sample duration
query; the `u32` reply is a q8 fixed-point microsecond count, divided by
256 (exact rational in this model). -/
def get_scan_mode_us_per_sample_with_timeout (d : RplidarDevice)
    (scan_mode : Nat) : Except RposError Rat × RplidarDevice :=
  match get_lidar_conf_with_param_and_timeout d
      RPLIDAR_CONF_SCAN_MODE_US_PER_SAMPLE (write_u16_le scan_mode) with
  | (Except.error e, d₁) => (Except.error e, d₁)
  | (Except.ok data, d₁) =>
    match parse_resp_u32 data with
    | Except.error e => (Except.error e, d₁)
    | Except.ok v => (Except.ok ((v : Rat) / 256), d₁)

/-- `get_scan_mode_max_distance_with_timeout`: per-mode maximum distance
query, likewise a q8 fixed-point value divided by 256. -/
def get_scan_mode_max_distance_with_timeout (d : RplidarDevice)
    (scan_mode : Nat) : Except RposError Rat × RplidarDevice :=
  match get_lidar_conf_with_param_and_timeout d
      RPLIDAR_CONF_SCAN_MODE_MAX_DISTANCE (write_u16_le scan_mode) with
  | (Except.error e, d₁) => (Except.error e, d₁)
  | (Except.ok data, d₁) =>
    match parse_resp_u32 data with
    | Except.error e => (Except.error e, d₁)
    | Except.ok v => (Except.ok ((v : Rat) / 256), d₁)

/-- `get_scan_mode_ans_type_with_timeout`: per-mode answer-type query,
parsed as a single byte. -/
def get_scan_mode_ans_type_with_timeout (d : RplidarDevice)
    (scan_mode : Nat) : Except RposError Nat × RplidarDevice :=
  match get_lidar_conf_with_param_and_timeout d
      RPLIDAR_CONF_SCAN_MODE_ANS_TYPE (write_u16_le scan_mode) with
  | (Except.error e, d₁) => (Except.error e, d₁)
  | (Except.ok data, d₁) => (parse_resp_u8 data, d₁)

/-- NUL trimming of a scan-mode name (`trim_matches` strips both ends). -/
def trimNuls (l : List Nat) : List Nat :=
  (((l.dropWhile (· = 0)).reverse).dropWhile (· = 0)).reverse

/-- `get_scan_mode_name_with_timeout`: per-mode name query; the reply must
be valid text (modelled as the ASCII fragment of UTF-8, which the claims
under test never exercise) and is NUL-trimmed, otherwise
`ProtocolError / "invalid scan mode name"`. -/
def get_scan_mode_name_with_timeout (d : RplidarDevice) (scan_mode : Nat) :
    Except RposError (List Nat) × RplidarDevice :=
  match get_lidar_conf_with_param_and_timeout d RPLIDAR_CONF_SCAN_MODE_NAME
      (write_u16_le scan_mode) with
  | (Except.error e, d₁) => (Except.error e, d₁)
  | (Except.ok data, d₁) =>
    if data.all (· < 128) then (Except.ok (trimNuls data), d₁)
    else
      (Except.error ⟨ErrorKind.ProtocolError, "invalid scan mode name"⟩, d₁)

/-- `get_scan_mode_count_with_timeout`: the mode-count config query parsed
as a `u16`. -/
def get_scan_mode_count_with_timeout (d : RplidarDevice) :
    Except RposError Nat × RplidarDevice :=
  match get_lidar_conf_with_param_and_timeout d RPLIDAR_CONF_SCAN_MODE_COUNT
      [] with
  | (Except.error e, d₁) => (Except.error e, d₁)
  | (Except.ok data, d₁) => (parse_resp_u16 data, d₁)

/-- `get_scan_mode_with_timeout`: the four sequential per-mode queries
(sample duration, max distance, answer type, name) composed into one
descriptor; the first failure aborts. -/
def get_scan_mode_with_timeout (d : RplidarDevice) (scan_mode : Nat) :
    Except RposError ScanMode × RplidarDevice :=
  match get_scan_mode_us_per_sample_with_timeout d scan_mode with
  | (Except.error e, d₁) => (Except.error e, d₁)
  | (Except.ok us, d₁) =>
    match get_scan_mode_max_distance_with_timeout d₁ scan_mode with
    | (Except.error e, d₂) => (Except.error e, d₂)
    | (Except.ok maxd, d₂) =>
      match get_scan_mode_ans_type_with_timeout d₂ scan_mode with
      | (Except.error e, d₃) => (Except.error e, d₃)
      | (Except.ok at_, d₃) =>
        match get_scan_mode_name_with_timeout d₃ scan_mode with
        | (Except.error e, d₄) => (Except.error e, d₄)
        | (Except.ok nm, d₄) =>
          (Except.ok
            { id := scan_mode, us_per_sample := us, max_distance := maxd,
              ans_type := at_, name := nm }, d₄)

/-- The `for i in 0..scan_mode_count` loop body of
`get_all_supported_scan_modes_with_timeout`, with its accumulated output
vector. -/
def getScanModesAux (d : RplidarDevice) (ids : List Nat)
    (acc : List ScanMode) : Except RposError (List ScanMode) × RplidarDevice :=
  match ids with
  | [] => (Except.ok acc, d)
  | i :: rest =>
    match get_scan_mode_with_timeout d i with
    | (Except.error e, d₁) => (Except.error e, d₁)
    | (Except.ok m, d₁) => getScanModesAux d₁ rest (acc ++ [m])

/-- `get_all_supported_scan_modes_with_timeout`: the mode count query, then
one `get_scan_mode` per id in ascending order. -/
def get_all_supported_scan_modes_with_timeout (d : RplidarDevice) :
    Except RposError (List ScanMode) × RplidarDevice :=
  match get_scan_mode_count_with_timeout d with
  | (Except.error e, d₁) => (Except.error e, d₁)
  | (Except.ok n, d₁) => getScanModesAux d₁ (List.range n) []

/-! ## Scan start (§4.3) -/

/-- `legacy_start_scan`: write the plain or forced legacy scan opcode. -/
def legacy_start_scan (d : RplidarDevice) (force_scan : Bool) :
    RplidarDevice :=
  channelWrite d
    ⟨if force_scan then RPLIDAR_CMD_FORCE_SCAN else RPLIDAR_CMD_SCAN, []⟩

/-- Modelled from the spec: the wire serialization of
`RplidarPayloadExpressScan` of the absent `answers` module — work mode
byte, 16-bit flags word, 32-bit reserved parameter, little-endian (§6). -/
def express_scan_payload (work_mode work_flags param : Nat) : List Nat :=
  work_mode % 256 :: (write_u16_le work_flags ++ write_u32_le param)

/-- `start_express_scan`: write the express scan opcode with the serialized
payload. -/
def start_express_scan (d : RplidarDevice)
    (work_mode work_flags param : Nat) : RplidarDevice :=
  channelWrite d
    ⟨RPLIDAR_CMD_EXPRESS_SCAN, express_scan_payload work_mode work_flags param⟩

/-- The mode resolution step of `start_scan_with_options_and_timeout`: an
explicit mode from the options, or the typical-mode query. -/
def resolveScanMode (d : RplidarDevice) (options : ScanOptions) :
    Except RposError Nat × RplidarDevice :=
  match options.scan_mode with
  | some mode => (Except.ok mode, d)
  | Option.none => get_typical_scan_mode_with_timeout d

/-- `start_scan_with_options_and_timeout`: reset the capsule cache to
`None` first, resolve the requested mode, fetch its descriptor, then
dispatch — mode id 0 issues the legacy request (forced per option), any
other id issues the express request with the mode id truncated to a byte
(`as u8`), the flags word truncated to 16 bits (`as u16`) and a zero
reserved parameter — and return the resolved descriptor. -/
def start_scan_with_options_and_timeout (d₀ : RplidarDevice)
    (options : ScanOptions) : Except RposError ScanMode × RplidarDevice :=
  let d := { d₀ with cached_prev_capsule := CachedPrevCapsule.None }
  match resolveScanMode d options with
  | (Except.error e, d₁) => (Except.error e, d₁)
  | (Except.ok scan_mode, d₁) =>
    match get_scan_mode_with_timeout d₁ scan_mode with
    | (Except.error e, d₂) => (Except.error e, d₂)
    | (Except.ok scan_mode_info, d₂) =>
      if scan_mode = 0 then
        (Except.ok scan_mode_info, legacy_start_scan d₂ options.force_scan)
      else
        (Except.ok scan_mode_info,
          start_express_scan d₂ (scan_mode % 256) (options.options % 65536) 0)

/-- `start_scan_with_options`: the default-timeout wrapper (timeouts carry
no information in this model). -/
def start_scan_with_options (d : RplidarDevice) (options : ScanOptions) :
    Except RposError ScanMode × RplidarDevice :=
  start_scan_with_options_and_timeout d options

/-- `start_scan_with_timeout`: default options. -/
def start_scan_with_timeout (d : RplidarDevice) :
    Except RposError ScanMode × RplidarDevice :=
  start_scan_with_options_and_timeout d ScanOptions.default

/-- `start_scan`: default options and default timeout. -/
def start_scan (d : RplidarDevice) :
    Except RposError ScanMode × RplidarDevice :=
  start_scan_with_options d ScanOptions.default

/-! ## Analysis helpers

Pure characterizations of the telemetry pipeline used to state and prove
the queue-delivery properties.  They restate no driver logic on their own:
`stepFrame_wait_ok` and `stepFrame_wait_err` below prove them equivalent to
one dispatch step of `wait_scan_data_with_timeout`. -/

/-- The effect of dispatching one telemetry frame on the capsule cache,
together with the canonical points it appends to the queue. -/
def stepFrame (cache : CachedPrevCapsule) (msg : Message) :
    Except RposError (List ScanPoint × CachedPrevCapsule) :=
  if msg.cmd = RPLIDAR_ANS_TYPE_MEASUREMENT then
    match parse_resp_measurement msg.data with
    | Except.error e => Except.error e
    | Except.ok node =>
      Except.ok ([ScanPoint.fromHq (normalizeLegacyNode node)], cache)
  else if msg.cmd = RPLIDAR_ANS_TYPE_MEASUREMENT_HQ then
    match parse_resp_hq msg.data with
    | Except.error e => Except.error e
    | Except.ok node => Except.ok ([ScanPoint.fromHq node], cache)
  else if msg.cmd = RPLIDAR_ANS_TYPE_MEASUREMENT_CAPSULED then
    match check_sync_and_checksum msg with
    | Except.error e => Except.error e
    | Except.ok _ =>
      match parse_resp_capsuled msg.data with
      | Except.error e => Except.error e
      | Except.ok nodes =>
        Except.ok
          ((parse_capsuled cache nodes).1.map ScanPoint.fromHq,
            (parse_capsuled cache nodes).2)
  else if msg.cmd = RPLIDAR_ANS_TYPE_MEASUREMENT_CAPSULED_ULTRA then
    match check_sync_and_checksum msg with
    | Except.error e => Except.error e
    | Except.ok _ =>
      match parse_resp_ultra_capsuled msg.data with
      | Except.error e => Except.error e
      | Except.ok nodes =>
        match cache with
        | CachedPrevCapsule.UltraCapsuled _ => Except.ok ([], cache)
        | _ => Except.ok ([], CachedPrevCapsule.UltraCapsuled nodes)
  else Except.error ⟨ErrorKind.ProtocolError, "unexpected response"⟩

/-- All canonical points decodable from a fully-buffered telemetry window,
with the final cache state; any frame-level error aborts the window. -/
def windowPoints (cache : CachedPrevCapsule) :
    List Message → Except RposError (List ScanPoint × CachedPrevCapsule)
  | [] => Except.ok ([], cache)
  | m :: rest =>
    match stepFrame cache m with
    | Except.error e => Except.error e
    | Except.ok pc =>
      match windowPoints pc.2 rest with
      | Except.error e => Except.error e
      | Except.ok pc' => Except.ok (pc.1 ++ pc'.1, pc'.2)

/-- A fully-buffered telemetry window that decodes without error: starting
from capsule cache `c`, the frames decode one by one to the given per-frame
point lists, ending with cache `c'`. -/
inductive FramesOk :
    CachedPrevCapsule → List Message → List (List ScanPoint) →
      CachedPrevCapsule → Prop where
  | nil (c : CachedPrevCapsule) : FramesOk c [] [] c
  | cons {c c₁ c₂ : CachedPrevCapsule} {m : Message} {ms : List Message}
      {pts : List ScanPoint} {ptss : List (List ScanPoint)}
      (hstep : stepFrame c m = Except.ok (pts, c₁))
      (htail : FramesOk c₁ ms ptss c₂) :
      FramesOk c (m :: ms) (pts :: ptss) c₂

/-- `n` consecutive `grab_scan_point` calls, with their results in call
order and the final driver state. -/
def grabSeq : Nat → RplidarDevice → List (Except RposError ScanPoint) × RplidarDevice
  | 0, d => ([], d)
  | n + 1, d =>
    let r := grab_scan_point_with_timeout d
    let rs := grabSeq n r.2
    (r.1 :: rs.1, rs.2)

/-! ## Supporting lemmas -/

theorem foldl_on_measurement_node_hq
    (l : List RplidarResponseMeasurementNodeHq) :
    ∀ d : RplidarDevice,
      l.foldl on_measurement_node_hq d =
        { d with
          cached_measurement_nodes :=
            d.cached_measurement_nodes ++ l.map ScanPoint.fromHq } := by
  induction l with
  | nil => intro d; simp
  | cons a t ih =>
    intro d
    simp [List.foldl_cons, on_measurement_node_hq, ih]

theorem stepFrame_wait_ok (d : RplidarDevice) (msg : Message)
    (rest : List Message) (pts : List ScanPoint) (c' : CachedPrevCapsule)
    (ht : d.telemetry = msg :: rest)
    (hs : stepFrame d.cached_prev_capsule msg = Except.ok (pts, c')) :
    wait_scan_data_with_timeout d =
      (Except.ok (),
        { d with
          telemetry := rest,
          cached_measurement_nodes := d.cached_measurement_nodes ++ pts,
          cached_prev_capsule := c' }) := by
  have hread : channelReadUntil d = (some msg, { d with telemetry := rest }) := by
    simp [channelReadUntil, ht]
  simp only [wait_scan_data_with_timeout, hread]
  unfold stepFrame at hs
  by_cases h1 : msg.cmd = RPLIDAR_ANS_TYPE_MEASUREMENT
  · rw [if_pos h1] at hs ⊢
    cases hp : parse_resp_measurement msg.data with
    | error e => rw [hp] at hs; simp at hs
    | ok node =>
      rw [hp] at hs
      simp only [Except.ok.injEq, Prod.mk.injEq] at hs
      obtain ⟨rfl, rfl⟩ := hs
      simp [on_measurement_node, on_measurement_node_hq]
  · rw [if_neg h1] at hs ⊢
    by_cases h2 : msg.cmd = RPLIDAR_ANS_TYPE_MEASUREMENT_HQ
    · rw [if_pos h2] at hs ⊢
      cases hp : parse_resp_hq msg.data with
      | error e => rw [hp] at hs; simp at hs
      | ok node =>
        rw [hp] at hs
        simp only [Except.ok.injEq, Prod.mk.injEq] at hs
        obtain ⟨rfl, rfl⟩ := hs
        simp [on_measurement_node_hq]
    · rw [if_neg h2] at hs ⊢
      by_cases h3 : msg.cmd = RPLIDAR_ANS_TYPE_MEASUREMENT_CAPSULED
      · rw [if_pos h3] at hs ⊢
        unfold on_measurement_capsuled_msg
        cases hchk : check_sync_and_checksum msg with
        | error e => rw [hchk] at hs; simp at hs
        | ok u =>
          rw [hchk] at hs
          cases hp : parse_resp_capsuled msg.data with
          | error e => rw [hp] at hs; simp at hs
          | ok nodes =>
            rw [hp] at hs
            simp only [Except.ok.injEq, Prod.mk.injEq] at hs
            obtain ⟨rfl, rfl⟩ := hs
            simp [on_measurement_capsuled, foldl_on_measurement_node_hq]
      · rw [if_neg h3] at hs ⊢
        by_cases h4 : msg.cmd = RPLIDAR_ANS_TYPE_MEASUREMENT_CAPSULED_ULTRA
        · rw [if_pos h4] at hs ⊢
          unfold on_measurement_ultra_capsuled_msg
          cases hchk : check_sync_and_checksum msg with
          | error e => rw [hchk] at hs; simp at hs
          | ok u =>
            simp only [hchk] at hs
            cases hp : parse_resp_ultra_capsuled msg.data with
            | error e => simp [hp] at hs
            | ok nodes =>
              simp only [hp] at hs
              unfold on_measurement_ultra_capsuled
              split at hs
              next prev heq =>
                simp only [Except.ok.injEq, Prod.mk.injEq] at hs
                obtain ⟨rfl, rfl⟩ := hs
                simp [heq]
              next x hne =>
                simp only [Except.ok.injEq, Prod.mk.injEq] at hs
                obtain ⟨rfl, rfl⟩ := hs
                cases hc : d.cached_prev_capsule with
                | None => simp [hc]
                | Capsuled prev => simp [hc]
                | UltraCapsuled prev => exact absurd hc (hne prev)
        · rw [if_neg h4] at hs ⊢
          cases hs

theorem stepFrame_wait_err (d : RplidarDevice) (msg : Message)
    (rest : List Message) (e : RposError)
    (ht : d.telemetry = msg :: rest)
    (hs : stepFrame d.cached_prev_capsule msg = Except.error e) :
    wait_scan_data_with_timeout d =
      (Except.error e, { d with telemetry := rest }) := by
  have hread : channelReadUntil d = (some msg, { d with telemetry := rest }) := by
    simp [channelReadUntil, ht]
  simp only [wait_scan_data_with_timeout, hread]
  unfold stepFrame at hs
  by_cases h1 : msg.cmd = RPLIDAR_ANS_TYPE_MEASUREMENT
  · rw [if_pos h1] at hs ⊢
    cases hp : parse_resp_measurement msg.data with
    | error e' =>
      rw [hp] at hs
      simp only [Except.error.injEq] at hs
      subst hs
      simp
    | ok node => rw [hp] at hs; simp at hs
  · rw [if_neg h1] at hs ⊢
    by_cases h2 : msg.cmd = RPLIDAR_ANS_TYPE_MEASUREMENT_HQ
    · rw [if_pos h2] at hs ⊢
      cases hp : parse_resp_hq msg.data with
      | error e' =>
        rw [hp] at hs
        simp only [Except.error.injEq] at hs
        subst hs
        simp
      | ok node => rw [hp] at hs; simp at hs
    · rw [if_neg h2] at hs ⊢
      by_cases h3 : msg.cmd = RPLIDAR_ANS_TYPE_MEASUREMENT_CAPSULED
      · rw [if_pos h3] at hs ⊢
        unfold on_measurement_capsuled_msg
        cases hchk : check_sync_and_checksum msg with
        | error e' =>
          rw [hchk] at hs
          simp only [Except.error.injEq] at hs
          subst hs
          simp
        | ok u =>
          rw [hchk] at hs
          cases hp : parse_resp_capsuled msg.data with
          | error e' =>
            rw [hp] at hs
            simp only [Except.error.injEq] at hs
            subst hs
            simp
          | ok nodes => rw [hp] at hs; simp at hs
      · rw [if_neg h3] at hs ⊢
        by_cases h4 : msg.cmd = RPLIDAR_ANS_TYPE_MEASUREMENT_CAPSULED_ULTRA
        · rw [if_pos h4] at hs ⊢
          unfold on_measurement_ultra_capsuled_msg
          cases hchk : check_sync_and_checksum msg with
          | error e' =>
            rw [hchk] at hs
            simp only [Except.error.injEq] at hs
            subst hs
            simp
          | ok u =>
            rw [hchk] at hs
            cases hp : parse_resp_ultra_capsuled msg.data with
            | error e' =>
              rw [hp] at hs
              simp only [Except.error.injEq] at hs
              subst hs
              simp
            | ok nodes =>
              simp only [hp] at hs
              split at hs <;> cases hs
        · rw [if_neg h4] at hs ⊢
          cases hs
          rfl

theorem grab_pop (d : RplidarDevice) (p : ScanPoint) (rest : List ScanPoint)
    (h : d.cached_measurement_nodes = p :: rest) :
    grab_scan_point_with_timeout d =
      (Except.ok p, { d with cached_measurement_nodes := rest }) := by
  simp only [grab_scan_point_with_timeout, h]

theorem grab_wait_err (d : RplidarDevice) (e : RposError) (d₁ : RplidarDevice)
    (hq : d.cached_measurement_nodes = [])
    (hw : wait_scan_data_with_timeout d = (Except.error e, d₁)) :
    grab_scan_point_with_timeout d = (Except.error e, d₁) := by
  simp only [grab_scan_point_with_timeout, hq, hw]

theorem grab_wait_ok_empty (d d₁ : RplidarDevice)
    (hq : d.cached_measurement_nodes = [])
    (hw : wait_scan_data_with_timeout d = (Except.ok (), d₁))
    (hq₁ : d₁.cached_measurement_nodes = []) :
    grab_scan_point_with_timeout d = (Except.error grabTimeout, d₁) := by
  simp only [grab_scan_point_with_timeout, hq, hw, hq₁]

theorem grab_wait_ok_pop (d d₁ : RplidarDevice) (p : ScanPoint)
    (ps : List ScanPoint)
    (hq : d.cached_measurement_nodes = [])
    (hw : wait_scan_data_with_timeout d = (Except.ok (), d₁))
    (hq₁ : d₁.cached_measurement_nodes = p :: ps) :
    grab_scan_point_with_timeout d =
      (Except.ok p, { d₁ with cached_measurement_nodes := ps }) := by
  simp only [grab_scan_point_with_timeout, hq, hw, hq₁]

theorem grab_exhausted (d : RplidarDevice)
    (hq : d.cached_measurement_nodes = [])
    (ht : d.telemetry = []) :
    grab_scan_point_with_timeout d = (Except.error grabTimeout, d) := by
  have hw : wait_scan_data_with_timeout d = (Except.ok (), d) := by
    simp [wait_scan_data_with_timeout, channelReadUntil, ht]
  exact grab_wait_ok_empty d d hq hw hq

theorem grabSeq_add (a b : Nat) :
    ∀ d : RplidarDevice,
      grabSeq (a + b) d =
        ((grabSeq a d).1 ++ (grabSeq b (grabSeq a d).2).1,
          (grabSeq b (grabSeq a d).2).2) := by
  induction a with
  | zero => intro d; simp [grabSeq]
  | succ n ih =>
    intro d
    rw [Nat.succ_add]
    simp only [grabSeq]
    rw [ih]
    simp

theorem grabSeq_pops (cache : CachedPrevCapsule) (q : List ScanPoint) :
    ∀ (res : List (Option Message)) (T : List Message) (snt : List Message)
      (rest : List ScanPoint),
      grabSeq q.length ⟨res, T, snt, q ++ rest, cache⟩ =
        (q.map Except.ok, ⟨res, T, snt, rest, cache⟩) := by
  induction q with
  | nil => intro res T snt rest; simp [grabSeq]
  | cons p t ih =>
    intro res T snt rest
    simp only [List.length_cons, grabSeq]
    rw [grab_pop ⟨res, T, snt, (p :: t) ++ rest, cache⟩ p (t ++ rest) rfl]
    simp only []
    rw [ih res T snt rest]
    simp

theorem grabSeq_frames {c c' : CachedPrevCapsule} {T : List Message}
    {ptss : List (List ScanPoint)} (hf : FramesOk c T ptss c') :
    (∀ pts ∈ ptss, pts ≠ []) →
    ∀ (res : List (Option Message)) (snt : List Message)
      (q : List ScanPoint),
      grabSeq (q.length + ptss.flatten.length) ⟨res, T, snt, q, c⟩ =
        ((q ++ ptss.flatten).map Except.ok, ⟨res, [], snt, [], c'⟩) := by
  induction hf with
  | nil c =>
    intro hne res snt q
    have hp := grabSeq_pops c q res [] snt []
    rw [List.append_nil] at hp
    simp [hp]
  | cons hstep htail ih =>
    rename_i c c₁ c₂ m ms pts ptss
    intro hne res snt q
    obtain ⟨p, ps, rfl⟩ : ∃ p ps, pts = p :: ps := by
      cases hpts : pts with
      | nil => exact absurd hpts (hne pts (by simp))
      | cons p ps => exact ⟨p, ps, rfl⟩
    have hne' : ∀ x ∈ ptss, x ≠ [] := fun x hx =>
      hne x (List.mem_cons_of_mem _ hx)
    have hlen : ((p :: ps) :: ptss).flatten.length =
        (ps ++ ptss.flatten).length + 1 := by simp
    rw [hlen, grabSeq_add]
    have hpop := grabSeq_pops c q res (m :: ms) snt []
    rw [List.append_nil] at hpop
    rw [hpop]
    have hw := stepFrame_wait_ok ⟨res, m :: ms, snt, [], c⟩ m ms (p :: ps) c₁
      rfl hstep
    have hgrab := grab_wait_ok_pop ⟨res, m :: ms, snt, [], c⟩
      ⟨res, ms, snt, p :: ps, c₁⟩ p ps rfl hw rfl
    simp only [grabSeq]
    rw [hgrab]
    simp only [List.length_append]
    rw [ih hne' res snt ps]
    simp

theorem get_lidar_conf_state (d : RplidarDevice) (ct : Nat) (p : List Nat) :
    (get_lidar_conf_with_param_and_timeout d ct p).2 =
      { d with
        responses := d.responses.tail,
        sent := d.sent ++ [confRequest ct p] } := by
  unfold get_lidar_conf_with_param_and_timeout channelInvoke channelWrite
  cases hr : d.responses with
  | nil => simp
  | cons r rest =>
    cases r with
    | none => simp
    | some rm =>
      simp only [List.tail_cons]
      split
      · rfl
      · split
        · rfl
        · rfl

theorem get_typical_scan_mode_state (d : RplidarDevice) :
    (get_typical_scan_mode_with_timeout d).2 =
      (get_lidar_conf_with_param_and_timeout d RPLIDAR_CONF_SCAN_MODE_TYPICAL
        []).2 := by
  unfold get_typical_scan_mode_with_timeout
  rcases hc : get_lidar_conf_with_param_and_timeout d
      RPLIDAR_CONF_SCAN_MODE_TYPICAL [] with ⟨r, d₁⟩
  cases r <;> simp

theorem get_scan_mode_count_state (d : RplidarDevice) :
    (get_scan_mode_count_with_timeout d).2 =
      (get_lidar_conf_with_param_and_timeout d RPLIDAR_CONF_SCAN_MODE_COUNT
        []).2 := by
  unfold get_scan_mode_count_with_timeout
  rcases hc : get_lidar_conf_with_param_and_timeout d
      RPLIDAR_CONF_SCAN_MODE_COUNT [] with ⟨r, d₁⟩
  cases r <;> simp

theorem get_scan_mode_us_per_sample_state (d : RplidarDevice) (i : Nat) :
    (get_scan_mode_us_per_sample_with_timeout d i).2 =
      (get_lidar_conf_with_param_and_timeout d
        RPLIDAR_CONF_SCAN_MODE_US_PER_SAMPLE (write_u16_le i)).2 := by
  unfold get_scan_mode_us_per_sample_with_timeout
  rcases hc : get_lidar_conf_with_param_and_timeout d
      RPLIDAR_CONF_SCAN_MODE_US_PER_SAMPLE (write_u16_le i) with ⟨r, d₁⟩
  cases r with
  | error e => simp
  | ok data =>
    simp only []
    cases parse_resp_u32 data <;> simp

theorem get_scan_mode_max_distance_state (d : RplidarDevice) (i : Nat) :
    (get_scan_mode_max_distance_with_timeout d i).2 =
      (get_lidar_conf_with_param_and_timeout d
        RPLIDAR_CONF_SCAN_MODE_MAX_DISTANCE (write_u16_le i)).2 := by
  unfold get_scan_mode_max_distance_with_timeout
  rcases hc : get_lidar_conf_with_param_and_timeout d
      RPLIDAR_CONF_SCAN_MODE_MAX_DISTANCE (write_u16_le i) with ⟨r, d₁⟩
  cases r with
  | error e => simp
  | ok data =>
    simp only []
    cases parse_resp_u32 data <;> simp

theorem get_scan_mode_ans_type_state (d : RplidarDevice) (i : Nat) :
    (get_scan_mode_ans_type_with_timeout d i).2 =
      (get_lidar_conf_with_param_and_timeout d
        RPLIDAR_CONF_SCAN_MODE_ANS_TYPE (write_u16_le i)).2 := by
  unfold get_scan_mode_ans_type_with_timeout
  rcases hc : get_lidar_conf_with_param_and_timeout d
      RPLIDAR_CONF_SCAN_MODE_ANS_TYPE (write_u16_le i) with ⟨r, d₁⟩
  cases r <;> simp

theorem get_scan_mode_name_state (d : RplidarDevice) (i : Nat) :
    (get_scan_mode_name_with_timeout d i).2 =
      (get_lidar_conf_with_param_and_timeout d
        RPLIDAR_CONF_SCAN_MODE_NAME (write_u16_le i)).2 := by
  unfold get_scan_mode_name_with_timeout
  rcases hc : get_lidar_conf_with_param_and_timeout d
      RPLIDAR_CONF_SCAN_MODE_NAME (write_u16_le i) with ⟨r, d₁⟩
  cases r with
  | error e => simp
  | ok data =>
    simp only []
    split <;> simp

/-- The four per-mode configuration request frames of `get_scan_mode`, in
the order they are issued. -/
def modeRequests (i : Nat) : List Message :=
  [confRequest RPLIDAR_CONF_SCAN_MODE_US_PER_SAMPLE (write_u16_le i),
   confRequest RPLIDAR_CONF_SCAN_MODE_MAX_DISTANCE (write_u16_le i),
   confRequest RPLIDAR_CONF_SCAN_MODE_ANS_TYPE (write_u16_le i),
   confRequest RPLIDAR_CONF_SCAN_MODE_NAME (write_u16_le i)]

theorem get_lidar_conf_cache (d : RplidarDevice) (ct : Nat) (p : List Nat) :
    (get_lidar_conf_with_param_and_timeout d ct p).2.cached_prev_capsule =
      d.cached_prev_capsule := by
  rw [get_lidar_conf_state]

theorem get_lidar_conf_sent (d : RplidarDevice) (ct : Nat) (p : List Nat) :
    (get_lidar_conf_with_param_and_timeout d ct p).2.sent =
      d.sent ++ [confRequest ct p] := by
  rw [get_lidar_conf_state]

theorem get_typical_scan_mode_cache (d : RplidarDevice) :
    (get_typical_scan_mode_with_timeout d).2.cached_prev_capsule =
      d.cached_prev_capsule := by
  rw [get_typical_scan_mode_state, get_lidar_conf_state]

theorem get_scan_mode_count_sent (d : RplidarDevice) :
    (get_scan_mode_count_with_timeout d).2.sent =
      d.sent ++ [confRequest RPLIDAR_CONF_SCAN_MODE_COUNT []] := by
  rw [get_scan_mode_count_state, get_lidar_conf_state]

theorem get_scan_mode_cache (d : RplidarDevice) (i : Nat) :
    (get_scan_mode_with_timeout d i).2.cached_prev_capsule =
      d.cached_prev_capsule := by
  unfold get_scan_mode_with_timeout
  rcases h1 : get_scan_mode_us_per_sample_with_timeout d i with ⟨r1, d₁⟩
  have e1 : d₁.cached_prev_capsule = d.cached_prev_capsule := by
    have h := get_scan_mode_us_per_sample_state d i
    rw [h1, get_lidar_conf_state] at h
    rw [show d₁ = (r1, d₁).2 from rfl, h]
  cases r1 with
  | error e => simpa using e1
  | ok v1 =>
    simp only []
    rcases h2 : get_scan_mode_max_distance_with_timeout d₁ i with ⟨r2, d₂⟩
    have e2 : d₂.cached_prev_capsule = d.cached_prev_capsule := by
      have h := get_scan_mode_max_distance_state d₁ i
      rw [h2, get_lidar_conf_state] at h
      rw [show d₂ = (r2, d₂).2 from rfl, h, e1]
    cases r2 with
    | error e => simpa using e2
    | ok v2 =>
      simp only []
      rcases h3 : get_scan_mode_ans_type_with_timeout d₂ i with ⟨r3, d₃⟩
      have e3 : d₃.cached_prev_capsule = d.cached_prev_capsule := by
        have h := get_scan_mode_ans_type_state d₂ i
        rw [h3, get_lidar_conf_state] at h
        rw [show d₃ = (r3, d₃).2 from rfl, h, e2]
      cases r3 with
      | error e => simpa using e3
      | ok v3 =>
        simp only []
        rcases h4 : get_scan_mode_name_with_timeout d₃ i with ⟨r4, d₄⟩
        have e4 : d₄.cached_prev_capsule = d.cached_prev_capsule := by
          have h := get_scan_mode_name_state d₃ i
          rw [h4, get_lidar_conf_state] at h
          rw [show d₄ = (r4, d₄).2 from rfl, h, e3]
        cases r4 with
        | error e => simpa using e4
        | ok v4 => simpa using e4

theorem get_scan_mode_ok (d : RplidarDevice) (i : Nat) (m : ScanMode)
    (d' : RplidarDevice)
    (h : get_scan_mode_with_timeout d i = (Except.ok m, d')) :
    m.id = i ∧ d'.sent = d.sent ++ modeRequests i := by
  unfold get_scan_mode_with_timeout at h
  rcases h1 : get_scan_mode_us_per_sample_with_timeout d i with ⟨r1, d₁⟩
  rw [h1] at h
  have e1 : d₁.sent = d.sent ++
      [confRequest RPLIDAR_CONF_SCAN_MODE_US_PER_SAMPLE (write_u16_le i)] := by
    have hst := get_scan_mode_us_per_sample_state d i
    rw [h1, get_lidar_conf_state] at hst
    rw [show d₁ = (r1, d₁).2 from rfl, hst]
  cases r1 with
  | error e => simp at h
  | ok v1 =>
    simp only [] at h
    rcases h2 : get_scan_mode_max_distance_with_timeout d₁ i with ⟨r2, d₂⟩
    rw [h2] at h
    have e2 : d₂.sent = d₁.sent ++
        [confRequest RPLIDAR_CONF_SCAN_MODE_MAX_DISTANCE (write_u16_le i)] := by
      have hst := get_scan_mode_max_distance_state d₁ i
      rw [h2, get_lidar_conf_state] at hst
      rw [show d₂ = (r2, d₂).2 from rfl, hst]
    cases r2 with
    | error e => simp at h
    | ok v2 =>
      simp only [] at h
      rcases h3 : get_scan_mode_ans_type_with_timeout d₂ i with ⟨r3, d₃⟩
      rw [h3] at h
      have e3 : d₃.sent = d₂.sent ++
          [confRequest RPLIDAR_CONF_SCAN_MODE_ANS_TYPE (write_u16_le i)] := by
        have hst := get_scan_mode_ans_type_state d₂ i
        rw [h3, get_lidar_conf_state] at hst
        rw [show d₃ = (r3, d₃).2 from rfl, hst]
      cases r3 with
      | error e => simp at h
      | ok v3 =>
        simp only [] at h
        rcases h4 : get_scan_mode_name_with_timeout d₃ i with ⟨r4, d₄⟩
        rw [h4] at h
        have e4 : d₄.sent = d₃.sent ++
            [confRequest RPLIDAR_CONF_SCAN_MODE_NAME (write_u16_le i)] := by
          have hst := get_scan_mode_name_state d₃ i
          rw [h4, get_lidar_conf_state] at hst
          rw [show d₄ = (r4, d₄).2 from rfl, hst]
        cases r4 with
        | error e => simp at h
        | ok v4 =>
          simp only [Prod.mk.injEq, Except.ok.injEq] at h
          obtain ⟨rfl, rfl⟩ := h
          refine ⟨rfl, ?_⟩
          rw [e4, e3, e2, e1]
          simp [modeRequests]

theorem getScanModesAux_append (ids₁ : List Nat) :
    ∀ (d : RplidarDevice) (ids₂ : List Nat) (acc : List ScanMode),
      getScanModesAux d (ids₁ ++ ids₂) acc =
        match getScanModesAux d ids₁ acc with
        | (Except.error e, d₁) => (Except.error e, d₁)
        | (Except.ok acc₁, d₁) => getScanModesAux d₁ ids₂ acc₁ := by
  induction ids₁ with
  | nil => intro d ids₂ acc; simp [getScanModesAux]
  | cons i rest ih =>
    intro d ids₂ acc
    simp only [List.cons_append, getScanModesAux]
    rcases hg : get_scan_mode_with_timeout d i with ⟨r, d₁⟩
    cases r with
    | error e => simp
    | ok m =>
      simp only []
      exact ih d₁ ids₂ (acc ++ [m])

theorem getScanModesAux_ok (ids : List Nat) :
    ∀ (d : RplidarDevice) (acc L : List ScanMode) (d' : RplidarDevice),
      getScanModesAux d ids acc = (Except.ok L, d') →
      L.map ScanMode.id = acc.map ScanMode.id ++ ids ∧
      d'.sent = d.sent ++ (ids.map modeRequests).flatten := by
  induction ids with
  | nil =>
    intro d acc L d' h
    simp only [getScanModesAux, Prod.mk.injEq, Except.ok.injEq] at h
    obtain ⟨rfl, rfl⟩ := h
    simp
  | cons i rest ih =>
    intro d acc L d' h
    simp only [getScanModesAux] at h
    rcases hg : get_scan_mode_with_timeout d i with ⟨r, d₁⟩
    rw [hg] at h
    cases r with
    | error e => simp at h
    | ok m =>
      simp only [] at h
      obtain ⟨hid, hsent⟩ := get_scan_mode_ok d i m d₁ hg
      obtain ⟨hmap, hsent₁⟩ := ih d₁ (acc ++ [m]) L d' h
      constructor
      · rw [hmap]
        simp [hid]
      · rw [hsent₁, hsent]
        simp

theorem getScanModesAux_err (d : RplidarDevice) (pre : List Nat) (j : Nat)
    (post : List Nat) (acc acc₁ : List ScanMode) (d₁ : RplidarDevice)
    (e : RposError) (d₂ : RplidarDevice)
    (hpre : getScanModesAux d pre acc = (Except.ok acc₁, d₁))
    (hj : get_scan_mode_with_timeout d₁ j = (Except.error e, d₂)) :
    getScanModesAux d (pre ++ j :: post) acc = (Except.error e, d₂) := by
  rw [getScanModesAux_append, hpre]
  simp only [getScanModesAux, hj]

theorem resolveScanMode_cache (d : RplidarDevice) (options : ScanOptions) :
    (resolveScanMode d options).2.cached_prev_capsule =
      d.cached_prev_capsule := by
  unfold resolveScanMode
  cases options.scan_mode with
  | none => exact get_typical_scan_mode_cache d
  | some m => rfl

theorem start_scan_cache_none (d : RplidarDevice) (options : ScanOptions) :
    (start_scan_with_options_and_timeout d options).2.cached_prev_capsule =
      CachedPrevCapsule.None := by
  unfold start_scan_with_options_and_timeout
  simp only []
  rcases hr : resolveScanMode
      { d with cached_prev_capsule := CachedPrevCapsule.None } options
    with ⟨r, d₁⟩
  have e1 : d₁.cached_prev_capsule = CachedPrevCapsule.None := by
    have h := resolveScanMode_cache
      { d with cached_prev_capsule := CachedPrevCapsule.None } options
    rw [hr] at h
    exact h
  cases r with
  | error e => simpa using e1
  | ok m =>
    simp only []
    rcases hg : get_scan_mode_with_timeout d₁ m with ⟨r2, d₂⟩
    have e2 : d₂.cached_prev_capsule = CachedPrevCapsule.None := by
      have h := get_scan_mode_cache d₁ m
      rw [hg] at h
      rw [show d₂ = (r2, d₂).2 from rfl, h, e1]
    cases r2 with
    | error e => simpa using e2
    | ok info =>
      simp only []
      split
      · simpa [legacy_start_scan, channelWrite] using e2
      · simpa [start_express_scan, channelWrite] using e2

/-! ## Claim theorems -/

/-- Claim C3: sync-and-checksum validation fails with the too-short error
when the payload is under two bytes; with the sync mismatch errors when a
high nibble of byte 0 or byte 1 differs from its fixed expected sync value;
with the checksum mismatch error when the XOR fold of the bytes from offset
2 differs from the received checksum, the one-byte value
`(byte0 & 0xf) | (byte1 << 4)`; and succeeds otherwise.  (The spec's
`TooShort` / `SyncMismatch` / `ChecksumMismatch` are the `ProtocolError`
variants with these descriptions.) -/
theorem check_sync_and_checksum_spec (msg : Message)
    (_hb : ∀ b ∈ msg.data, b < 256) :
    (msg.data.length < 2 →
      check_sync_and_checksum msg =
        Except.error ⟨ErrorKind.ProtocolError, "data too short"⟩) ∧
    (∀ b0 b1 rest, msg.data = b0 :: b1 :: rest →
      (b0 / 16 ≠ RPLIDAR_RESP_MEASUREMENT_EXP_SYNC_1 →
        check_sync_and_checksum msg =
          Except.error ⟨ErrorKind.ProtocolError, "miss sync 1"⟩) ∧
      (b0 / 16 = RPLIDAR_RESP_MEASUREMENT_EXP_SYNC_1 →
        b1 / 16 ≠ RPLIDAR_RESP_MEASUREMENT_EXP_SYNC_2 →
        check_sync_and_checksum msg =
          Except.error ⟨ErrorKind.ProtocolError, "miss sync 2"⟩) ∧
      (b0 / 16 = RPLIDAR_RESP_MEASUREMENT_EXP_SYNC_1 →
        b1 / 16 = RPLIDAR_RESP_MEASUREMENT_EXP_SYNC_2 →
        (checksumOf rest ≠ recvChecksum b0 b1 →
          check_sync_and_checksum msg =
            Except.error ⟨ErrorKind.ProtocolError, "checksum mismatch"⟩) ∧
        (checksumOf rest = recvChecksum b0 b1 →
          check_sync_and_checksum msg = Except.ok ()))) := by
  constructor
  · intro h
    unfold check_sync_and_checksum
    rw [if_pos h]
  · intro b0 b1 rest hdata
    have hlen : ¬ (b0 :: b1 :: rest).length < 2 := by simp
    unfold check_sync_and_checksum
    rw [hdata]
    rw [if_neg hlen]
    have g0 : (b0 :: b1 :: rest).getD 0 0 = b0 := rfl
    have g1 : (b0 :: b1 :: rest).getD 1 0 = b1 := rfl
    have gd : (b0 :: b1 :: rest).drop 2 = rest := rfl
    rw [g0, g1, gd]
    refine ⟨fun hs1 => by rw [if_pos hs1], ?_, ?_⟩
    · intro hs1 hs2
      rw [if_neg (fun hne => hne hs1), if_pos hs2]
    · intro hs1 hs2
      rw [if_neg (fun hne => hne hs1), if_neg (fun hne => hne hs2)]
      exact ⟨fun hck => by rw [if_pos hck],
        fun hck => by rw [if_neg (fun hne => hne hck)]⟩

theorem check_sync_and_checksum_spec_witness :
    (∀ b ∈ [0xA5, 0x50, 7], b < 256) ∧
    checksumOf [7] ≠ recvChecksum 0xA5 0x50 ∧
    check_sync_and_checksum
        ⟨RPLIDAR_ANS_TYPE_MEASUREMENT_CAPSULED, [0xA5, 0x50, 7]⟩ =
      Except.error ⟨ErrorKind.ProtocolError, "checksum mismatch"⟩ :=
  ⟨by decide, by decide,
    (((check_sync_and_checksum_spec
        ⟨RPLIDAR_ANS_TYPE_MEASUREMENT_CAPSULED, [0xA5, 0x50, 7]⟩
        (by decide)).2 0xA5 0x50 [7] rfl).2.2 (by decide) (by decide)).1
      (by decide)⟩

/-- Claim C9: the telemetry dispatch step returns success with no new
points (the state is completely unchanged) when the transport yields no
frame within the timeout, and returns the unexpected-response
`ProtocolError` when a frame arrives whose answer type is none of the four
telemetry types, without touching the point queue or the capsule cache. -/
theorem wait_scan_data_spec (d : RplidarDevice) :
    (d.telemetry = [] → wait_scan_data_with_timeout d = (Except.ok (), d)) ∧
    (∀ msg rest, d.telemetry = msg :: rest →
      msg.cmd ≠ RPLIDAR_ANS_TYPE_MEASUREMENT →
      msg.cmd ≠ RPLIDAR_ANS_TYPE_MEASUREMENT_HQ →
      msg.cmd ≠ RPLIDAR_ANS_TYPE_MEASUREMENT_CAPSULED →
      msg.cmd ≠ RPLIDAR_ANS_TYPE_MEASUREMENT_CAPSULED_ULTRA →
      wait_scan_data_with_timeout d =
        (Except.error ⟨ErrorKind.ProtocolError, "unexpected response"⟩,
          { d with telemetry := rest })) := by
  constructor
  · intro h
    simp [wait_scan_data_with_timeout, channelReadUntil, h]
  · intro msg rest ht h1 h2 h3 h4
    have hs : stepFrame d.cached_prev_capsule msg =
        Except.error ⟨ErrorKind.ProtocolError, "unexpected response"⟩ := by
      unfold stepFrame
      rw [if_neg h1, if_neg h2, if_neg h3, if_neg h4]
    exact stepFrame_wait_err d msg rest _ ht hs

theorem wait_scan_data_spec_witness :
    wait_scan_data_with_timeout ⟨[], [], [], [], CachedPrevCapsule.None⟩ =
      (Except.ok (), ⟨[], [], [], [], CachedPrevCapsule.None⟩) ∧
    wait_scan_data_with_timeout
        ⟨[], [⟨0, []⟩], [], [], CachedPrevCapsule.None⟩ =
      (Except.error ⟨ErrorKind.ProtocolError, "unexpected response"⟩,
        ⟨[], [], [], [], CachedPrevCapsule.None⟩) :=
  ⟨(wait_scan_data_spec ⟨[], [], [], [], CachedPrevCapsule.None⟩).1 rfl,
    (wait_scan_data_spec ⟨[], [⟨0, []⟩], [], [], CachedPrevCapsule.None⟩).2
      ⟨0, []⟩ [] rfl (by decide) (by decide) (by decide) (by decide)⟩

/-- Claim C10: every `start_scan` variant sets the cached previous capsule
to `None` before issuing any request, and no path restores it: the cache is
`None` in the state the call returns, whether the call succeeded or failed
partway through mode resolution, descriptor fetching or scan-start
dispatch. -/
theorem start_scan_always_clears_capsule_cache (d : RplidarDevice)
    (options : ScanOptions) :
    (start_scan_with_options_and_timeout d options).2.cached_prev_capsule =
        CachedPrevCapsule.None ∧
    (start_scan_with_options d options).2.cached_prev_capsule =
        CachedPrevCapsule.None ∧
    (start_scan_with_timeout d).2.cached_prev_capsule =
        CachedPrevCapsule.None ∧
    (start_scan d).2.cached_prev_capsule = CachedPrevCapsule.None :=
  ⟨start_scan_cache_none d options, start_scan_cache_none d options,
    start_scan_cache_none d ScanOptions.default,
    start_scan_cache_none d ScanOptions.default⟩

/-- Claim C6: a configuration round trip whose reply is a config answer of
at least four bytes returns exactly the bytes after the four-byte echo when
the echo little-endian-decodes to the requested config type, and fails with
`OperationFail` (returning no result bytes) when the echo decodes to any
other value. -/
theorem get_lidar_conf_echo_spec (d : RplidarDevice) (config_type : Nat)
    (param : List Nat) (rm : Message) (rest : List (Option Message))
    (hr : d.responses = some rm :: rest)
    (hcmd : rm.cmd = RPLIDAR_ANS_TYPE_GET_LIDAR_CONF)
    (hlen : 4 ≤ rm.data.length) :
    (read_u32_le rm.data = config_type →
      get_lidar_conf_with_param_and_timeout d config_type param =
        (Except.ok (rm.data.drop 4),
          { d with
            responses := rest,
            sent := d.sent ++ [confRequest config_type param] })) ∧
    (read_u32_le rm.data ≠ config_type →
      get_lidar_conf_with_param_and_timeout d config_type param =
        (Except.error
            ⟨ErrorKind.OperationFail, "answer config type mismatch"⟩,
          { d with
            responses := rest,
            sent := d.sent ++ [confRequest config_type param] })) := by
  have hinv : channelInvoke d (confRequest config_type param) =
      (some rm,
        { d with
          responses := rest,
          sent := d.sent ++ [confRequest config_type param] }) := by
    simp [channelInvoke, channelWrite, hr]
  constructor
  · intro hecho
    unfold get_lidar_conf_with_param_and_timeout
    rw [hinv]
    simp only []
    rw [if_neg (fun hne => hne hcmd),
      if_neg (by push_neg; exact ⟨hlen, hecho⟩)]
  · intro hne
    unfold get_lidar_conf_with_param_and_timeout
    rw [hinv]
    simp only []
    rw [if_neg (fun hne2 => hne2 hcmd), if_pos (Or.inr hne)]

/-- The config reply used by the C6 witness: it echoes config type `0x71`
and carries the result bytes `[9, 9]`. -/
def confEchoReply : Message :=
  ⟨RPLIDAR_ANS_TYPE_GET_LIDAR_CONF, [0x71, 0, 0, 0, 9, 9]⟩

/-- The device state of the C6 witness: one pending config reply. -/
def dConfEcho : RplidarDevice :=
  ⟨[some confEchoReply], [], [], [], CachedPrevCapsule.None⟩

theorem get_lidar_conf_echo_spec_witness :
    get_lidar_conf_with_param_and_timeout dConfEcho 0x71 [] =
      (Except.ok [9, 9],
        ⟨[], [], [confRequest 0x71 []], [], CachedPrevCapsule.None⟩) ∧
    get_lidar_conf_with_param_and_timeout dConfEcho 0x72 [] =
      (Except.error ⟨ErrorKind.OperationFail, "answer config type mismatch"⟩,
        ⟨[], [], [confRequest 0x72 []], [], CachedPrevCapsule.None⟩) :=
  ⟨(get_lidar_conf_echo_spec dConfEcho 0x71 [] confEchoReply [] rfl rfl
      (by decide)).1 (by decide),
    (get_lidar_conf_echo_spec dConfEcho 0x72 [] confEchoReply [] rfl rfl
      (by decide)).2 (by decide)⟩

theorem check_sync_error_kind (msg : Message) (e : RposError)
    (h : check_sync_and_checksum msg = Except.error e) :
    e.kind = ErrorKind.ProtocolError := by
  unfold check_sync_and_checksum at h
  split at h
  · cases h; rfl
  · split at h
    · cases h; rfl
    · split at h
      · cases h; rfl
      · split at h
        · cases h; rfl
        · cases h

/-- Claim C2 (amended): a capsule or ultra-capsule frame that fails
sync/checksum validation is dropped — the capsule cache is not updated and
no points are appended — but the validation error (a `ProtocolError`) IS
returned by the dispatch step, and `grab_scan_point` propagates it to the
caller instead of reporting a silent zero-point cycle. -/
theorem invalid_capsule_dropped_with_error (d : RplidarDevice)
    (msg : Message) (rest : List Message) (e : RposError)
    (ht : d.telemetry = msg :: rest)
    (hcmd : msg.cmd = RPLIDAR_ANS_TYPE_MEASUREMENT_CAPSULED ∨
      msg.cmd = RPLIDAR_ANS_TYPE_MEASUREMENT_CAPSULED_ULTRA)
    (hchk : check_sync_and_checksum msg = Except.error e) :
    e.kind = ErrorKind.ProtocolError ∧
    wait_scan_data_with_timeout d =
      (Except.error e, { d with telemetry := rest }) ∧
    (d.cached_measurement_nodes = [] →
      grab_scan_point_with_timeout d =
        (Except.error e, { d with telemetry := rest })) := by
  have hs : stepFrame d.cached_prev_capsule msg = Except.error e := by
    unfold stepFrame
    rcases hcmd with hc | hc
    · rw [if_neg (by rw [hc]; decide), if_neg (by rw [hc]; decide),
        if_pos hc, hchk]
    · rw [if_neg (by rw [hc]; decide), if_neg (by rw [hc]; decide),
        if_neg (by rw [hc]; decide), if_pos hc, hchk]
  have hw := stepFrame_wait_err d msg rest e ht hs
  exact ⟨check_sync_error_kind msg e hchk, hw,
    fun hq => grab_wait_err d e _ hq hw⟩

/-- The malformed capsule frame of the C2 theorems: an empty payload, which
fails validation with the too-short error. -/
def badCapsuleFrame : Message := ⟨RPLIDAR_ANS_TYPE_MEASUREMENT_CAPSULED, []⟩

/-- The device of the C2 counterexample: empty queue, one buffered
malformed capsule frame. -/
def dBadCapsule : RplidarDevice :=
  ⟨[], [badCapsuleFrame], [], [], CachedPrevCapsule.None⟩

theorem invalid_capsule_dropped_with_error_witness :
    check_sync_and_checksum badCapsuleFrame =
      Except.error ⟨ErrorKind.ProtocolError, "data too short"⟩ ∧
    wait_scan_data_with_timeout dBadCapsule =
      (Except.error ⟨ErrorKind.ProtocolError, "data too short"⟩,
        ⟨[], [], [], [], CachedPrevCapsule.None⟩) :=
  ⟨by decide,
    (invalid_capsule_dropped_with_error dBadCapsule badCapsuleFrame []
      ⟨ErrorKind.ProtocolError, "data too short"⟩ rfl (Or.inl rfl)
      (by decide)).2.1⟩

/-- Claim C2 counterexample: the claim says a checksum-failing capsule
frame surfaces no `ProtocolError` to the telemetry caller, who observes
only zero points for the cycle; in fact `grab_scan_point` returns exactly
the validation `ProtocolError` for it (the cache is indeed left
untouched). -/
theorem invalid_capsule_error_surfaces_cex :
    grab_scan_point_with_timeout dBadCapsule =
      (Except.error ⟨ErrorKind.ProtocolError, "data too short"⟩,
        ⟨[], [], [], [], CachedPrevCapsule.None⟩) := by decide

/-- First valid ultra-capsule frame of the C1 run (checksum 0). -/
def ultraFrame1 : Message :=
  ⟨RPLIDAR_ANS_TYPE_MEASUREMENT_CAPSULED_ULTRA,
    0xA0 :: 0x50 :: List.replicate 130 0⟩

/-- Second valid ultra-capsule frame of the C1 run, with different payload
bytes (checksum 1). -/
def ultraFrame2 : Message :=
  ⟨RPLIDAR_ANS_TYPE_MEASUREMENT_CAPSULED_ULTRA,
    0xA1 :: 0x50 :: 1 :: List.replicate 129 0⟩

/-- Fresh driver state of the C1 run. -/
def dUltra0 : RplidarDevice := ⟨[], [], [], [], CachedPrevCapsule.None⟩

/-- Driver state after the first ultra-capsule frame: the frame is cached
and nothing is emitted (first capsule of the session). -/
def dUltra1 : RplidarDevice :=
  ⟨[], [], [], [],
    CachedPrevCapsule.UltraCapsuled ⟨ultraFrame1.data⟩⟩

set_option maxRecDepth 8192 in
/-- Claim C1 (code bug): two consecutive valid ultra-capsule frames.  The
first is cached.  The second arrives while a previous ultra capsule is
cached — the pairing opportunity the claim requires the driver to take —
but the driver state is left completely unchanged: no interpolated points
are emitted, the cache still holds the FIRST capsule, and the second is
silently discarded (the empty TODO arm of `on_measurement_ultra_capsuled`
in the source). -/
theorem ultra_capsule_pairing_dropped :
    on_measurement_ultra_capsuled_msg dUltra0 ultraFrame1 =
      (Except.ok (), dUltra1) ∧
    on_measurement_ultra_capsuled_msg dUltra1 ultraFrame2 =
      (Except.ok (), dUltra1) ∧
    (⟨ultraFrame2.data⟩ : RplidarResponseUltraCapsuleMeasurementNodes) ≠
      ⟨ultraFrame1.data⟩ := by decide

/-- Claim C5: after any successful `start_scan` call the cached previous
capsule is `None`, so the next capsule record received is treated as the
first capsule of the session: it emits no points (the queue is unchanged)
and simply becomes the new cache — even if a capsule was cached before the
call. -/
theorem start_scan_then_first_capsule_emits_nothing (d : RplidarDevice)
    (options : ScanOptions) (info : ScanMode) (d' : RplidarDevice)
    (h : start_scan_with_options_and_timeout d options =
      (Except.ok info, d')) :
    d'.cached_prev_capsule = CachedPrevCapsule.None ∧
    ∀ nodes, on_measurement_capsuled d' nodes =
      { d' with cached_prev_capsule := CachedPrevCapsule.Capsuled nodes } := by
  have hc : d'.cached_prev_capsule = CachedPrevCapsule.None := by
    have hh := start_scan_cache_none d options
    rw [h] at hh
    exact hh
  refine ⟨hc, fun nodes => ?_⟩
  simp [on_measurement_capsuled, parse_capsuled, hc]

/-- Options of the C5 witness: explicit legacy mode 0. -/
def optsScanW : ScanOptions := ⟨some 0, false, 0⟩

/-- C5 witness device: four pending config replies for mode 0, and a
capsule already cached from a previous session. -/
def dScanW : RplidarDevice :=
  ⟨[some ⟨RPLIDAR_ANS_TYPE_GET_LIDAR_CONF, [0x71, 0, 0, 0, 0, 25, 0, 0]⟩,
    some ⟨RPLIDAR_ANS_TYPE_GET_LIDAR_CONF, [0x74, 0, 0, 0, 0, 16, 0, 0]⟩,
    some ⟨RPLIDAR_ANS_TYPE_GET_LIDAR_CONF, [0x75, 0, 0, 0, 0x81]⟩,
    some ⟨RPLIDAR_ANS_TYPE_GET_LIDAR_CONF, [0x7F, 0, 0, 0, 83]⟩],
    [], [], [], CachedPrevCapsule.Capsuled ⟨100, []⟩⟩

/-- The mode-0 descriptor resolved by the C5 witness run. -/
def infoScanW : ScanMode := ⟨0, 25, 16, 0x81, [83]⟩

/-- Post-state of the C5 witness run: all replies consumed, the four config
requests and the legacy scan-start request sent, capsule cache cleared. -/
def dScanW' : RplidarDevice :=
  ⟨[], [],
    [confRequest 0x71 [0, 0], confRequest 0x74 [0, 0],
      confRequest 0x75 [0, 0], confRequest 0x7F [0, 0],
      ⟨RPLIDAR_CMD_SCAN, []⟩],
    [], CachedPrevCapsule.None⟩

/-- The capsule record received right after the C5 witness scan start. -/
def capsW : RplidarResponseCapsuleMeasurementNodes := ⟨7, []⟩

theorem start_scan_then_first_capsule_emits_nothing_witness :
    start_scan_with_options_and_timeout dScanW optsScanW =
      (Except.ok infoScanW, dScanW') ∧
    dScanW'.cached_prev_capsule = CachedPrevCapsule.None ∧
    on_measurement_capsuled dScanW' capsW =
      { dScanW' with
        cached_prev_capsule := CachedPrevCapsule.Capsuled capsW } := by
  have h : start_scan_with_options_and_timeout dScanW optsScanW =
      (Except.ok infoScanW, dScanW') := by
    norm_num [start_scan_with_options_and_timeout, resolveScanMode,
      get_scan_mode_with_timeout, get_scan_mode_us_per_sample_with_timeout,
      get_scan_mode_max_distance_with_timeout,
      get_scan_mode_ans_type_with_timeout, get_scan_mode_name_with_timeout,
      get_lidar_conf_with_param_and_timeout, channelInvoke, channelWrite,
      confRequest, write_u32_le, write_u16_le, read_u32_le, le16,
      parse_resp_u32, parse_resp_u8, parse_resp_u16, trimNuls,
      legacy_start_scan, dScanW, optsScanW, infoScanW, dScanW',
      RPLIDAR_ANS_TYPE_GET_LIDAR_CONF,
      RPLIDAR_CONF_SCAN_MODE_US_PER_SAMPLE,
      RPLIDAR_CONF_SCAN_MODE_MAX_DISTANCE, RPLIDAR_CONF_SCAN_MODE_ANS_TYPE,
      RPLIDAR_CONF_SCAN_MODE_NAME, RPLIDAR_CMD_GET_LIDAR_CONF,
      RPLIDAR_CMD_SCAN]
  have h2 := start_scan_then_first_capsule_emits_nothing dScanW optsScanW
    infoScanW dScanW' h
  exact ⟨h, h2.1, h2.2 capsW⟩

/-- Claim C7: `get_all_supported_scan_modes` queries the mode count first
(the count request is the first one sent), then queries mode ids 0 to
count−1 in ascending order (the sent log is the count request followed by
each mode's request block in ascending id order, and the returned
descriptors carry ids `0, 1, …, count−1` in order); if any single per-mode
query fails, the whole call fails with exactly that error, returning no
partial list. -/
theorem get_all_supported_scan_modes_spec (d : RplidarDevice) (n : Nat)
    (d₁ : RplidarDevice)
    (hc : get_scan_mode_count_with_timeout d = (Except.ok n, d₁)) :
    d₁.sent = d.sent ++ [confRequest RPLIDAR_CONF_SCAN_MODE_COUNT []] ∧
    (∀ L d₂, getScanModesAux d₁ (List.range n) [] = (Except.ok L, d₂) →
      get_all_supported_scan_modes_with_timeout d = (Except.ok L, d₂) ∧
      L.map ScanMode.id = List.range n ∧
      d₂.sent = d₁.sent ++ ((List.range n).map modeRequests).flatten) ∧
    (∀ pre j post acc d₂ e d₃, List.range n = pre ++ j :: post →
      getScanModesAux d₁ pre [] = (Except.ok acc, d₂) →
      get_scan_mode_with_timeout d₂ j = (Except.error e, d₃) →
      get_all_supported_scan_modes_with_timeout d = (Except.error e, d₃)) := by
  have hsent : d₁.sent =
      d.sent ++ [confRequest RPLIDAR_CONF_SCAN_MODE_COUNT []] := by
    have hh := get_scan_mode_count_sent d
    rw [hc] at hh
    exact hh
  have hall : get_all_supported_scan_modes_with_timeout d =
      getScanModesAux d₁ (List.range n) [] := by
    unfold get_all_supported_scan_modes_with_timeout
    rw [hc]
  refine ⟨hsent, ?_, ?_⟩
  · intro L d₂ h
    obtain ⟨hmap, hsent₂⟩ := getScanModesAux_ok (List.range n) d₁ [] L d₂ h
    exact ⟨by rw [hall, h], by simpa using hmap, hsent₂⟩
  · intro pre j post acc d₂ e d₃ hsplit hpre hj
    rw [hall, hsplit]
    exact getScanModesAux_err d₁ pre j post [] acc d₂ e d₃ hpre hj

/-- C7 witness device: a count reply of 1 followed by the four config
replies for mode 0. -/
def dAllW : RplidarDevice :=
  ⟨[some ⟨RPLIDAR_ANS_TYPE_GET_LIDAR_CONF, [0x70, 0, 0, 0, 1, 0]⟩,
    some ⟨RPLIDAR_ANS_TYPE_GET_LIDAR_CONF, [0x71, 0, 0, 0, 0, 25, 0, 0]⟩,
    some ⟨RPLIDAR_ANS_TYPE_GET_LIDAR_CONF, [0x74, 0, 0, 0, 0, 16, 0, 0]⟩,
    some ⟨RPLIDAR_ANS_TYPE_GET_LIDAR_CONF, [0x75, 0, 0, 0, 0x81]⟩,
    some ⟨RPLIDAR_ANS_TYPE_GET_LIDAR_CONF, [0x7F, 0, 0, 0, 83]⟩],
    [], [], [], CachedPrevCapsule.None⟩

/-- C7 witness device after the count query. -/
def dAllW₁ : RplidarDevice :=
  ⟨[some ⟨RPLIDAR_ANS_TYPE_GET_LIDAR_CONF, [0x71, 0, 0, 0, 0, 25, 0, 0]⟩,
    some ⟨RPLIDAR_ANS_TYPE_GET_LIDAR_CONF, [0x74, 0, 0, 0, 0, 16, 0, 0]⟩,
    some ⟨RPLIDAR_ANS_TYPE_GET_LIDAR_CONF, [0x75, 0, 0, 0, 0x81]⟩,
    some ⟨RPLIDAR_ANS_TYPE_GET_LIDAR_CONF, [0x7F, 0, 0, 0, 83]⟩],
    [], [confRequest 0x70 []], [], CachedPrevCapsule.None⟩

/-- The single mode descriptor returned in the C7 witness run. -/
def infoAllW : ScanMode := ⟨0, 25, 16, 0x81, [83]⟩

/-- Final C7 witness state: count request first, then mode 0's block. -/
def dAllW' : RplidarDevice :=
  ⟨[], [],
    [confRequest 0x70 [], confRequest 0x71 [0, 0], confRequest 0x74 [0, 0],
      confRequest 0x75 [0, 0], confRequest 0x7F [0, 0]],
    [], CachedPrevCapsule.None⟩

theorem get_all_supported_scan_modes_spec_witness :
    get_all_supported_scan_modes_with_timeout dAllW =
      (Except.ok [infoAllW], dAllW') ∧
    [infoAllW].map ScanMode.id = List.range 1 := by
  have hc : get_scan_mode_count_with_timeout dAllW =
      (Except.ok 1, dAllW₁) := by decide
  have haux : getScanModesAux dAllW₁ (List.range 1) [] =
      (Except.ok [infoAllW], dAllW') := by
    norm_num [getScanModesAux, get_scan_mode_with_timeout,
      get_scan_mode_us_per_sample_with_timeout,
      get_scan_mode_max_distance_with_timeout,
      get_scan_mode_ans_type_with_timeout, get_scan_mode_name_with_timeout,
      get_lidar_conf_with_param_and_timeout, channelInvoke, channelWrite,
      confRequest, write_u32_le, write_u16_le, read_u32_le, le16,
      parse_resp_u32, parse_resp_u8, parse_resp_u16, trimNuls, dAllW₁,
      infoAllW, dAllW', List.range_succ,
      RPLIDAR_ANS_TYPE_GET_LIDAR_CONF,
      RPLIDAR_CONF_SCAN_MODE_US_PER_SAMPLE,
      RPLIDAR_CONF_SCAN_MODE_MAX_DISTANCE, RPLIDAR_CONF_SCAN_MODE_ANS_TYPE,
      RPLIDAR_CONF_SCAN_MODE_NAME, RPLIDAR_CMD_GET_LIDAR_CONF]
  have h := (get_all_supported_scan_modes_spec dAllW 1 dAllW₁ hc).2.1
    [infoAllW] dAllW' haux
  exact ⟨h.1, h.2.1⟩

/-- Claim C8 (amended): a successful `start_scan` resolving mode id `m`
returns the resolved descriptor (whose id is `m`); for `m = 0` it issues
the legacy scan-start request, in the forced variant exactly when the force
option is set; for `m ≠ 0` it issues the express scan-start request
carrying the LOW EIGHT BITS of the mode id (the source truncates with
`as u8`), the options flags word (truncated to 16 bits), and a reserved
parameter equal to zero. -/
theorem start_scan_dispatch_spec (d : RplidarDevice) (options : ScanOptions)
    (m : Nat) (d₁ : RplidarDevice) (info : ScanMode) (d₂ : RplidarDevice)
    (hres : resolveScanMode
        { d with cached_prev_capsule := CachedPrevCapsule.None } options =
      (Except.ok m, d₁))
    (hinfo : get_scan_mode_with_timeout d₁ m = (Except.ok info, d₂)) :
    info.id = m ∧
    (m = 0 →
      start_scan_with_options_and_timeout d options =
        (Except.ok info,
          channelWrite d₂
            ⟨if options.force_scan then RPLIDAR_CMD_FORCE_SCAN
              else RPLIDAR_CMD_SCAN, []⟩)) ∧
    (m ≠ 0 →
      start_scan_with_options_and_timeout d options =
        (Except.ok info,
          channelWrite d₂
            ⟨RPLIDAR_CMD_EXPRESS_SCAN,
              express_scan_payload (m % 256) (options.options % 65536)
                0⟩)) := by
  obtain ⟨hid, _⟩ := get_scan_mode_ok d₁ m info d₂ hinfo
  refine ⟨hid, fun hm => ?_, fun hm => ?_⟩
  · unfold start_scan_with_options_and_timeout
    simp only []
    rw [hres]
    simp only []
    rw [hinfo]
    simp only []
    rw [if_pos hm]
    rfl
  · unfold start_scan_with_options_and_timeout
    simp only []
    rw [hres]
    simp only []
    rw [hinfo]
    simp only []
    rw [if_neg hm]
    rfl

/-- C8 counterexample device: four pending config replies echoing the
per-mode queries for mode 256. -/
def dModeCex : RplidarDevice :=
  ⟨[some ⟨RPLIDAR_ANS_TYPE_GET_LIDAR_CONF, [0x71, 0, 0, 0, 0, 10, 0, 0]⟩,
    some ⟨RPLIDAR_ANS_TYPE_GET_LIDAR_CONF, [0x74, 0, 0, 0, 0, 16, 0, 0]⟩,
    some ⟨RPLIDAR_ANS_TYPE_GET_LIDAR_CONF, [0x75, 0, 0, 0, 0x82]⟩,
    some ⟨RPLIDAR_ANS_TYPE_GET_LIDAR_CONF, [0x7F, 0, 0, 0, 69]⟩],
    [], [], [], CachedPrevCapsule.None⟩

/-- The mode-256 descriptor resolved in the C8 counterexample run. -/
def infoModeCex : ScanMode := ⟨256, 10, 16, 0x82, [69]⟩

/-- Final state of the C8 counterexample run: the last request sent is the
express scan-start whose work-mode byte is 0, not 256. -/
def dModeCex' : RplidarDevice :=
  ⟨[], [],
    [confRequest 0x71 [0, 1], confRequest 0x74 [0, 1],
      confRequest 0x75 [0, 1], confRequest 0x7F [0, 1],
      ⟨RPLIDAR_CMD_EXPRESS_SCAN, [0, 0, 0, 0, 0, 0, 0]⟩],
    [], CachedPrevCapsule.None⟩

/-- Claim C8 counterexample: a successful `start_scan` that resolves mode
id 256 issues an express scan-start request whose work-mode byte is
`256 % 256 = 0` — the request does not carry the mode id 256 the claim
asserts. -/
theorem express_scan_mode_id_truncated_cex :
    start_scan_with_options_and_timeout dModeCex ⟨some 256, false, 0⟩ =
      (Except.ok infoModeCex, dModeCex') ∧
    infoModeCex.id = 256 ∧
    dModeCex'.sent.getLast? =
      some ⟨RPLIDAR_CMD_EXPRESS_SCAN,
        0 :: (write_u16_le 0 ++ write_u32_le 0)⟩ ∧
    (0 : Nat) ≠ 256 := by
  refine ⟨?_, rfl, by decide, by decide⟩
  norm_num [start_scan_with_options_and_timeout, resolveScanMode,
    get_scan_mode_with_timeout, get_scan_mode_us_per_sample_with_timeout,
    get_scan_mode_max_distance_with_timeout,
    get_scan_mode_ans_type_with_timeout, get_scan_mode_name_with_timeout,
    get_lidar_conf_with_param_and_timeout, channelInvoke, channelWrite,
    confRequest, write_u32_le, write_u16_le, read_u32_le, le16,
    parse_resp_u32, parse_resp_u8, parse_resp_u16, trimNuls,
    start_express_scan, express_scan_payload, dModeCex, infoModeCex,
    dModeCex', RPLIDAR_ANS_TYPE_GET_LIDAR_CONF,
    RPLIDAR_CONF_SCAN_MODE_US_PER_SAMPLE,
    RPLIDAR_CONF_SCAN_MODE_MAX_DISTANCE, RPLIDAR_CONF_SCAN_MODE_ANS_TYPE,
    RPLIDAR_CONF_SCAN_MODE_NAME, RPLIDAR_CMD_GET_LIDAR_CONF,
    RPLIDAR_CMD_EXPRESS_SCAN]

/-- C8 witness device: four pending config replies for mode 2, with a
stale capsule cached. -/
def dDispW : RplidarDevice :=
  ⟨[some ⟨RPLIDAR_ANS_TYPE_GET_LIDAR_CONF, [0x71, 0, 0, 0, 0, 25, 0, 0]⟩,
    some ⟨RPLIDAR_ANS_TYPE_GET_LIDAR_CONF, [0x74, 0, 0, 0, 0, 16, 0, 0]⟩,
    some ⟨RPLIDAR_ANS_TYPE_GET_LIDAR_CONF, [0x75, 0, 0, 0, 0x82]⟩,
    some ⟨RPLIDAR_ANS_TYPE_GET_LIDAR_CONF, [0x7F, 0, 0, 0, 69]⟩],
    [], [], [], CachedPrevCapsule.Capsuled ⟨3, []⟩⟩

/-- The mode-2 descriptor of the C8 witness run. -/
def infoDispW : ScanMode := ⟨2, 25, 16, 0x82, [69]⟩

/-- C8 witness state right before the scan-start dispatch. -/
def dDispW₂ : RplidarDevice :=
  ⟨[], [],
    [confRequest 0x71 [2, 0], confRequest 0x74 [2, 0],
      confRequest 0x75 [2, 0], confRequest 0x7F [2, 0]],
    [], CachedPrevCapsule.None⟩

theorem start_scan_dispatch_spec_witness :
    start_scan_with_options_and_timeout dDispW ⟨some 2, false, 3⟩ =
      (Except.ok infoDispW,
        channelWrite dDispW₂
          ⟨RPLIDAR_CMD_EXPRESS_SCAN, express_scan_payload 2 3 0⟩) := by
  have hres : resolveScanMode
      { dDispW with cached_prev_capsule := CachedPrevCapsule.None }
      ⟨some 2, false, 3⟩ =
      (Except.ok 2,
        { dDispW with cached_prev_capsule := CachedPrevCapsule.None }) := rfl
  have hinfo : get_scan_mode_with_timeout
      { dDispW with cached_prev_capsule := CachedPrevCapsule.None } 2 =
      (Except.ok infoDispW, dDispW₂) := by
    norm_num [get_scan_mode_with_timeout,
      get_scan_mode_us_per_sample_with_timeout,
      get_scan_mode_max_distance_with_timeout,
      get_scan_mode_ans_type_with_timeout, get_scan_mode_name_with_timeout,
      get_lidar_conf_with_param_and_timeout, channelInvoke, channelWrite,
      confRequest, write_u32_le, write_u16_le, read_u32_le, le16,
      parse_resp_u32, parse_resp_u8, parse_resp_u16, trimNuls, dDispW,
      infoDispW, dDispW₂, RPLIDAR_ANS_TYPE_GET_LIDAR_CONF,
      RPLIDAR_CONF_SCAN_MODE_US_PER_SAMPLE,
      RPLIDAR_CONF_SCAN_MODE_MAX_DISTANCE, RPLIDAR_CONF_SCAN_MODE_ANS_TYPE,
      RPLIDAR_CONF_SCAN_MODE_NAME, RPLIDAR_CMD_GET_LIDAR_CONF]
  exact (start_scan_dispatch_spec dDispW ⟨some 2, false, 3⟩ 2 _ infoDispW
    dDispW₂ hres hinfo).2.2 (by decide)

/-- Claim C4 (amended): (a) with a non-empty point queue `grab_scan_point`
pops and returns the head with no I/O (the telemetry buffer and everything
else are untouched); (b) with an empty queue exactly one dispatch attempt
is made: a dispatch error propagates, and if the queue is still empty
afterwards the call fails with `OperationTimeout`; (c) over a deterministic
fully-buffered input in which EVERY frame decodes without error to at least
one point, totalling M points, the first M calls succeed delivering exactly
those M points in decode order and the (M+1)-th call fails with
`OperationTimeout`.  (The original claim omits the at-least-one-point
proviso: a zero-point frame — a first capsule, or any ultra capsule — makes
the call that dispatches it fail with `OperationTimeout` even though later
buffered frames still hold points; see the counterexample.) -/
theorem grab_scan_point_spec :
    (∀ (d : RplidarDevice) (p : ScanPoint) (rest : List ScanPoint),
      d.cached_measurement_nodes = p :: rest →
      grab_scan_point_with_timeout d =
        (Except.ok p, { d with cached_measurement_nodes := rest })) ∧
    (∀ (d : RplidarDevice) (e : RposError) (d₁ : RplidarDevice),
      d.cached_measurement_nodes = [] →
      wait_scan_data_with_timeout d = (Except.error e, d₁) →
      grab_scan_point_with_timeout d = (Except.error e, d₁)) ∧
    (∀ (d d₁ : RplidarDevice),
      d.cached_measurement_nodes = [] →
      wait_scan_data_with_timeout d = (Except.ok (), d₁) →
      d₁.cached_measurement_nodes = [] →
      grab_scan_point_with_timeout d = (Except.error grabTimeout, d₁)) ∧
    (∀ (res : List (Option Message)) (T snt : List Message)
        (ptss : List (List ScanPoint)) (c c' : CachedPrevCapsule),
      FramesOk c T ptss c' →
      (∀ pts ∈ ptss, pts ≠ []) →
      grabSeq ptss.flatten.length ⟨res, T, snt, [], c⟩ =
        (ptss.flatten.map Except.ok, ⟨res, [], snt, [], c'⟩) ∧
      grab_scan_point_with_timeout ⟨res, [], snt, [], c'⟩ =
        (Except.error grabTimeout, ⟨res, [], snt, [], c'⟩)) := by
  refine ⟨grab_pop, grab_wait_err, grab_wait_ok_empty, ?_⟩
  intro res T snt ptss c c' hf hne
  constructor
  · have h := grabSeq_frames hf hne res snt []
    simpa using h
  · exact grab_exhausted ⟨res, [], snt, [], c'⟩ rfl rfl

/-- The HQ measurement frame used by the C4 theorems; it decodes to the
single canonical point with angle 0, distance 10, quality 5, sync flag 1. -/
def hqFrameW : Message :=
  ⟨RPLIDAR_ANS_TYPE_MEASUREMENT_HQ, [0, 0, 10, 0, 0, 0, 5, 1]⟩

/-- A second HQ measurement frame; it decodes to the canonical point with
angle 1024, distance 20, quality 6, sync flag 0. -/
def hqFrameW₂ : Message :=
  ⟨RPLIDAR_ANS_TYPE_MEASUREMENT_HQ, [0, 4, 20, 0, 0, 0, 6, 0]⟩

theorem grab_scan_point_spec_witness :
    grabSeq 2 ⟨[], [hqFrameW, hqFrameW₂], [], [], CachedPrevCapsule.None⟩ =
      ([Except.ok ⟨0, 10, 5, 1⟩, Except.ok ⟨1024, 20, 6, 0⟩],
        ⟨[], [], [], [], CachedPrevCapsule.None⟩) ∧
    grab_scan_point_with_timeout ⟨[], [], [], [], CachedPrevCapsule.None⟩ =
      (Except.error grabTimeout, ⟨[], [], [], [], CachedPrevCapsule.None⟩) := by
  have h := (grab_scan_point_spec).2.2.2 [] [hqFrameW, hqFrameW₂] []
    [[⟨0, 10, 5, 1⟩], [⟨1024, 20, 6, 0⟩]]
    CachedPrevCapsule.None CachedPrevCapsule.None
    (FramesOk.cons
      (show stepFrame CachedPrevCapsule.None hqFrameW =
          Except.ok ([⟨0, 10, 5, 1⟩], CachedPrevCapsule.None) by decide)
      (FramesOk.cons
        (show stepFrame CachedPrevCapsule.None hqFrameW₂ =
            Except.ok ([⟨1024, 20, 6, 0⟩], CachedPrevCapsule.None) by decide)
        (FramesOk.nil CachedPrevCapsule.None)))
    (by decide)
  exact ⟨h.1, h.2⟩

/-- The device of the C4 counterexample: empty queue, a fully-buffered
window of one valid ultra-capsule frame followed by one HQ frame. -/
def dGrabCex : RplidarDevice :=
  ⟨[], [ultraFrame1, hqFrameW], [], [], CachedPrevCapsule.None⟩

set_option maxRecDepth 8192 in
/-- Claim C4 counterexample: the buffered window `[ultra frame, HQ frame]`
decodes to exactly M = 1 point, so the claim predicts the 1st call succeeds
with that point and the 2nd call fails with `OperationTimeout`.  In fact
the 1st call fails with `OperationTimeout` (its single dispatch consumes
the ultra frame, which yields zero points) and the 2nd call succeeds. -/
theorem grab_call_indexing_cex :
    windowPoints CachedPrevCapsule.None [ultraFrame1, hqFrameW] =
      Except.ok ([⟨0, 10, 5, 1⟩],
        CachedPrevCapsule.UltraCapsuled ⟨ultraFrame1.data⟩) ∧
    grabSeq 2 dGrabCex =
      ([Except.error grabTimeout, Except.ok ⟨0, 10, 5, 1⟩],
        ⟨[], [], [], [],
          CachedPrevCapsule.UltraCapsuled ⟨ultraFrame1.data⟩⟩) := by decide

end Rplidar
